import Mathlib

/-!
# find-object: `Settings.cpp`

A shallow embedding of `src/Settings.cpp` (strategy-code decoding, the
detector / descriptor / nearest-neighbor factories, the capability dispatch
wrappers, the settings loader and saver), followed by theorems about it.

Conventions of the embedding:

* a `QString` is the list of its characters; its `size()` counts 16-bit units,
  two for a character above `0xFFFF` (`QString.size`);
* a nullable C++ pointer is an `Option`;
* `Q_ASSERT(c)` with `c` false and a thrown C++ exception are `Except.error`;
* the typed getters `Settings::getX_Y()` (generated in `Settings.h`) are the
  fields `X_Y` of the record `Settings`;
* an object built by `new T(a, b, ...)` is the constructor `T` applied to the
  list of its arguments, in the order of the call.
-/

namespace FindObject

/-! ## Qt strings -/

/-- A `QString`, as the sequence of its characters. -/
abbrev QString := List Char

/-- The call `QString::split(sep)` (default `KeepEmptyParts`): the pieces
between the occurrences of `sep`; the empty string gives one empty piece. -/
def split (sep : Char) : QString → List QString
  | [] => [[]]
  | c :: cs =>
    if c = sep then [] :: split sep cs
    else
      match split sep cs with
      | [] => [[c]]
      | p :: ps => (c :: p) :: ps

/-- The call `QStringList::join(sep)`: the pieces with `sep` between them. -/
def join (sep : Char) : List QString → QString
  | [] => []
  | [p] => p
  | p :: q :: ps => p ++ sep :: join sep (q :: ps)

/-- The call `QStringList::at(i)` for an `int` position; the source only calls
it in range, out of range the embedding yields the empty string. -/
def QStringList.at (l : List QString) (i : Int) : QString :=
  l.getD i.toNat []

/-- The call `QChar::isSpace()`: the characters 9 to 13 and the Unicode
separators (space, line and paragraph). -/
def isSpace (c : Char) : Bool :=
  (9 ≤ c.toNat && c.toNat ≤ 13) || c.toNat = 0x20 || c.toNat = 0xA0 || c.toNat = 0x1680 ||
    c.toNat = 0x180E || (0x2000 ≤ c.toNat && c.toNat ≤ 0x200A) || c.toNat = 0x2028 ||
    c.toNat = 0x2029 || c.toNat = 0x202F || c.toNat = 0x205F || c.toNat = 0x3000

/-- The value of a decimal digit. -/
def digitValue (c : Char) : Option Nat :=
  if '0' ≤ c ∧ c ≤ '9' then some (c.toNat - '0'.toNat) else none

/-- The value of a run of decimal digits read after `acc`; `none` when a
character is not a digit. -/
def digitsValue (acc : Nat) : QString → Option Nat
  | [] => some acc
  | c :: cs =>
    match digitValue c with
    | some d => digitsValue (10 * acc + d) cs
    | none => none

/-- A non-empty run of decimal digits. -/
def parseDigits : QString → Option Nat
  | [] => none
  | c :: cs => digitsValue 0 (c :: cs)

/-- The string without leading and trailing white space. -/
def trimmed (s : QString) : QString :=
  ((s.dropWhile isSpace).reverse.dropWhile isSpace).reverse

/-- The call `QString::toInt(&ok)` in base 10, as Qt documents it for the C
locale: `some n` when `ok` is set, `none` when it is cleared. White space
around the number and one sign are accepted, the digits are decimal and the
value has to fit a 32-bit `int`. -/
def toInt (s : QString) : Option Int :=
  match trimmed s with
  | '-' :: ds =>
    match parseDigits ds with
    | some n => if n ≤ 2147483648 then some (-(n : Int)) else none
    | none => none
  | '+' :: ds =>
    match parseDigits ds with
    | some n => if n ≤ 2147483647 then some (n : Int) else none
    | none => none
  | ds =>
    match parseDigits ds with
    | some n => if n ≤ 2147483647 then some (n : Int) else none
    | none => none

/-! ## Variants and the getters of `Settings.h` -/

/-- A `QVariant`. A floating-point payload is kept as the text that
`QVariant::toString` renders for it, a `QByteArray` payload as its bytes. -/
inductive QVariant where
  | invalid
  | bool (b : Bool)
  | int (n : Int)
  | real (text : QString)
  | string (s : QString)
  | byteArray (bytes : List Nat)
  deriving DecidableEq, Repr

/-- The record of the typed getters `Settings::getX_Y()` read by the factories:
strategy codes are strings, the `gpu` switches are booleans, every other
parameter is handed to a constructor as it is stored. -/
structure Settings where
  Feature2D_1Detector : QString
  Feature2D_2Descriptor : QString
  Feature2D_Dense_initFeatureScale : QVariant
  Feature2D_Dense_featureScaleLevels : QVariant
  Feature2D_Dense_featureScaleMul : QVariant
  Feature2D_Dense_initXyStep : QVariant
  Feature2D_Dense_initImgBound : QVariant
  Feature2D_Dense_varyXyStepWithScale : QVariant
  Feature2D_Dense_varyImgBoundWithScale : QVariant
  Feature2D_Fast_gpu : Bool
  Feature2D_Fast_threshold : QVariant
  Feature2D_Fast_nonmaxSuppression : QVariant
  Feature2D_GFTT_maxCorners : QVariant
  Feature2D_GFTT_qualityLevel : QVariant
  Feature2D_GFTT_minDistance : QVariant
  Feature2D_GFTT_blockSize : QVariant
  Feature2D_GFTT_useHarrisDetector : QVariant
  Feature2D_GFTT_k : QVariant
  Feature2D_MSER_delta : QVariant
  Feature2D_MSER_minArea : QVariant
  Feature2D_MSER_maxArea : QVariant
  Feature2D_MSER_maxVariation : QVariant
  Feature2D_MSER_minDiversity : QVariant
  Feature2D_MSER_maxEvolution : QVariant
  Feature2D_MSER_areaThreshold : QVariant
  Feature2D_MSER_minMargin : QVariant
  Feature2D_MSER_edgeBlurSize : QVariant
  Feature2D_ORB_gpu : Bool
  Feature2D_ORB_nFeatures : QVariant
  Feature2D_ORB_scaleFactor : QVariant
  Feature2D_ORB_nLevels : QVariant
  Feature2D_ORB_edgeThreshold : QVariant
  Feature2D_ORB_firstLevel : QVariant
  Feature2D_ORB_WTA_K : QVariant
  Feature2D_ORB_scoreType : QVariant
  Feature2D_ORB_patchSize : QVariant
  Feature2D_SIFT_nfeatures : QVariant
  Feature2D_SIFT_nOctaveLayers : QVariant
  Feature2D_SIFT_contrastThreshold : QVariant
  Feature2D_SIFT_edgeThreshold : QVariant
  Feature2D_SIFT_sigma : QVariant
  Feature2D_Star_maxSize : QVariant
  Feature2D_Star_responseThreshold : QVariant
  Feature2D_Star_lineThresholdProjected : QVariant
  Feature2D_Star_lineThresholdBinarized : QVariant
  Feature2D_Star_suppressNonmaxSize : QVariant
  Feature2D_SURF_gpu : Bool
  Feature2D_SURF_hessianThreshold : QVariant
  Feature2D_SURF_nOctaves : QVariant
  Feature2D_SURF_nOctaveLayers : QVariant
  Feature2D_SURF_extended : QVariant
  Feature2D_SURF_keypointsRatio : QVariant
  Feature2D_SURF_upright : QVariant
  Feature2D_BRISK_thresh : QVariant
  Feature2D_BRISK_octaves : QVariant
  Feature2D_BRISK_patternScale : QVariant
  Feature2D_Brief_bytes : QVariant
  Feature2D_FREAK_orientationNormalized : QVariant
  Feature2D_FREAK_scaleNormalized : QVariant
  Feature2D_FREAK_patternScale : QVariant
  Feature2D_FREAK_nOctaves : QVariant
  NearestNeighbor_1Strategy : QString
  NearestNeighbor_2Distance_type : QString
  NearestNeighbor_7search_checks : QVariant
  NearestNeighbor_8search_eps : QVariant
  NearestNeighbor_9search_sorted : QVariant
  NearestNeighbor_KDTree_trees : QVariant
  NearestNeighbor_KMeans_branching : QVariant
  NearestNeighbor_KMeans_iterations : QVariant
  NearestNeighbor_KMeans_centers_init : QString
  NearestNeighbor_KMeans_cb_index : QVariant
  NearestNeighbor_Composite_trees : QVariant
  NearestNeighbor_Composite_branching : QVariant
  NearestNeighbor_Composite_iterations : QVariant
  NearestNeighbor_Composite_centers_init : QString
  NearestNeighbor_Composite_cb_index : QVariant
  NearestNeighbor_Autotuned_target_precision : QVariant
  NearestNeighbor_Autotuned_build_weight : QVariant
  NearestNeighbor_Autotuned_memory_weight : QVariant
  NearestNeighbor_Autotuned_sample_fraction : QVariant
  NearestNeighbor_Lsh_table_number : QVariant
  NearestNeighbor_Lsh_key_size : QVariant
  NearestNeighbor_Lsh_multi_probe_level : QVariant
  Homography_method : QString

/-! ## Constructed algorithm objects -/

/-- The general-purpose detectors of the vision library (`cv::FeatureDetector`),
each with the arguments of its constructor call. -/
inductive cv.FeatureDetector where
  | DenseFeatureDetector (args : List QVariant)
  | FastFeatureDetector (args : List QVariant)
  | GFTTDetector (args : List QVariant)
  | MSER (args : List QVariant)
  | ORB (args : List QVariant)
  | SIFT (args : List QVariant)
  | StarFeatureDetector (args : List QVariant)
  | SURF (args : List QVariant)
  | BRISK (args : List QVariant)
  deriving DecidableEq, Repr

/-- The general-purpose extractors of the vision library
(`cv::DescriptorExtractor`), each with the arguments of its constructor call. -/
inductive cv.DescriptorExtractor where
  | BriefDescriptorExtractor (args : List QVariant)
  | ORB (args : List QVariant)
  | SIFT (args : List QVariant)
  | SURF (args : List QVariant)
  | BRISK (args : List QVariant)
  | FREAK (args : List QVariant)
  deriving DecidableEq, Repr

/-- The accelerated implementations (subclasses of `GPUFeature2D`), each with
the arguments of its constructor call. -/
inductive GPUFeature2D where
  | GPUSURF (args : List QVariant)
  | GPUFAST (args : List QVariant)
  | GPUORB (args : List QVariant)
  deriving DecidableEq, Repr

/-- The index parameter objects of the vision library
(`cv::flann::IndexParams`); `centers_init` is the integer value of the
`cvflann::flann_centers_init_t` passed. `KDTreeIndexParams []` is the
constructor call without arguments, which takes the library defaults. -/
inductive cv.flann.IndexParams where
  | LinearIndexParams
  | KDTreeIndexParams (args : List QVariant)
  | KMeansIndexParams (branching iterations : QVariant) (centers_init : Int) (cb_index : QVariant)
  | CompositeIndexParams (trees branching iterations : QVariant) (centers_init : Int)
      (cb_index : QVariant)
  | AutotunedIndexParams (args : List QVariant)
  | LshIndexParams (args : List QVariant)
  deriving DecidableEq, Repr

/-- The class `KeypointDetector`: its two backing pointers. -/
structure KeypointDetector where
  featureDetector_ : Option cv.FeatureDetector
  gpuFeature2D_ : Option GPUFeature2D
  deriving DecidableEq, Repr

/-- The class `DescriptorExtractor`: its two backing pointers. -/
structure DescriptorExtractor where
  descriptorExtractor_ : Option cv.DescriptorExtractor
  gpuFeature2D_ : Option GPUFeature2D
  deriving DecidableEq, Repr

/-- What stops a call: a failed `Q_ASSERT` (with its condition) or a C++
exception leaving the function. -/
inductive Abort where
  | assertion (condition : String)
  | cvException (msg : String)
  | otherException (what : String)
  | nullDereference
  | unknownKeyError (key : List Char)
  | typeMismatchError (key : List Char)
  deriving DecidableEq, Repr

/-- The constructor `KeypointDetector::KeypointDetector(cv::FeatureDetector *)`. -/
def KeypointDetector.ofFeatureDetector (featureDetector : Option cv.FeatureDetector) :
    Except Abort KeypointDetector :=
  if featureDetector.isSome then
    .ok { featureDetector_ := featureDetector, gpuFeature2D_ := none }
  else .error (.assertion "featureDetector_!=0")

/-- The constructor `KeypointDetector::KeypointDetector(GPUFeature2D *)`. -/
def KeypointDetector.ofGPUFeature2D (gpuFeature2D : Option GPUFeature2D) :
    Except Abort KeypointDetector :=
  if gpuFeature2D.isSome then
    .ok { featureDetector_ := none, gpuFeature2D_ := gpuFeature2D }
  else .error (.assertion "gpuFeature2D_!=0")

/-- The constructor `DescriptorExtractor::DescriptorExtractor(cv::DescriptorExtractor *)`. -/
def DescriptorExtractor.ofDescriptorExtractor
    (descriptorExtractor : Option cv.DescriptorExtractor) : Except Abort DescriptorExtractor :=
  if descriptorExtractor.isSome then
    .ok { descriptorExtractor_ := descriptorExtractor, gpuFeature2D_ := none }
  else .error (.assertion "descriptorExtractor_!=0")

/-- The constructor `DescriptorExtractor::DescriptorExtractor(GPUFeature2D *)`. -/
def DescriptorExtractor.ofGPUFeature2D (gpuFeature2D : Option GPUFeature2D) :
    Except Abort DescriptorExtractor :=
  if gpuFeature2D.isSome then
    .ok { descriptorExtractor_ := none, gpuFeature2D_ := gpuFeature2D }
  else .error (.assertion "gpuFeature2D_!=0")

/-! ## `Settings::createKeypointDetector` -/

/-- The `switch(index)` of `Settings::createKeypointDetector` (source lines
328-487), reached with nine `strategies` and `index` from 0 to 8: the values of
the locals `detector` and `detectorGPU` after it. `deviceCount` is the `int`
returned by `cv::gpu::getCudaEnabledDeviceCount()`, tested for being non-zero
as the `&&` of the source does. -/
def createKeypointDetector_switch (st : Settings) (deviceCount : Int) (strategies : List QString)
    (index : Int) : Option cv.FeatureDetector × Option GPUFeature2D :=
  if index = 0 then
    if QStringList.at strategies index = "Dense".toList then
      (some (.DenseFeatureDetector [
        st.Feature2D_Dense_initFeatureScale,
        st.Feature2D_Dense_featureScaleLevels,
        st.Feature2D_Dense_featureScaleMul,
        st.Feature2D_Dense_initXyStep,
        st.Feature2D_Dense_initImgBound,
        st.Feature2D_Dense_varyXyStepWithScale,
        st.Feature2D_Dense_varyImgBoundWithScale]), none)
    else (none, none)
  else if index = 1 then
    if QStringList.at strategies index = "Fast".toList then
      if st.Feature2D_Fast_gpu = true ∧ deviceCount ≠ 0 then
        (none, some (.GPUFAST [
          st.Feature2D_Fast_threshold,
          st.Feature2D_Fast_nonmaxSuppression]))
      else
        (some (.FastFeatureDetector [
          st.Feature2D_Fast_threshold,
          st.Feature2D_Fast_nonmaxSuppression]), none)
    else (none, none)
  else if index = 2 then
    if QStringList.at strategies index = "GFTT".toList then
      (some (.GFTTDetector [
        st.Feature2D_GFTT_maxCorners,
        st.Feature2D_GFTT_qualityLevel,
        st.Feature2D_GFTT_minDistance,
        st.Feature2D_GFTT_blockSize,
        st.Feature2D_GFTT_useHarrisDetector,
        st.Feature2D_GFTT_k]), none)
    else (none, none)
  else if index = 3 then
    if QStringList.at strategies index = "MSER".toList then
      (some (.MSER [
        st.Feature2D_MSER_delta,
        st.Feature2D_MSER_minArea,
        st.Feature2D_MSER_maxArea,
        st.Feature2D_MSER_maxVariation,
        st.Feature2D_MSER_minDiversity,
        st.Feature2D_MSER_maxEvolution,
        st.Feature2D_MSER_areaThreshold,
        st.Feature2D_MSER_minMargin,
        st.Feature2D_MSER_edgeBlurSize]), none)
    else (none, none)
  else if index = 4 then
    if QStringList.at strategies index = "ORB".toList then
      if st.Feature2D_ORB_gpu = true ∧ deviceCount ≠ 0 then
        (none, some (.GPUORB [
          st.Feature2D_ORB_nFeatures,
          st.Feature2D_ORB_scaleFactor,
          st.Feature2D_ORB_nLevels,
          st.Feature2D_ORB_edgeThreshold,
          st.Feature2D_ORB_firstLevel,
          st.Feature2D_ORB_WTA_K,
          st.Feature2D_ORB_scoreType,
          st.Feature2D_ORB_patchSize,
          st.Feature2D_Fast_threshold,
          st.Feature2D_Fast_nonmaxSuppression]))
      else
        (some (.ORB [
          st.Feature2D_ORB_nFeatures,
          st.Feature2D_ORB_scaleFactor,
          st.Feature2D_ORB_nLevels,
          st.Feature2D_ORB_edgeThreshold,
          st.Feature2D_ORB_firstLevel,
          st.Feature2D_ORB_WTA_K,
          st.Feature2D_ORB_scoreType,
          st.Feature2D_ORB_patchSize]), none)
    else (none, none)
  else if index = 5 then
    if QStringList.at strategies index = "SIFT".toList then
      (some (.SIFT [
        st.Feature2D_SIFT_nfeatures,
        st.Feature2D_SIFT_nOctaveLayers,
        st.Feature2D_SIFT_contrastThreshold,
        st.Feature2D_SIFT_edgeThreshold,
        st.Feature2D_SIFT_sigma]), none)
    else (none, none)
  else if index = 6 then
    if QStringList.at strategies index = "Star".toList then
      (some (.StarFeatureDetector [
        st.Feature2D_Star_maxSize,
        st.Feature2D_Star_responseThreshold,
        st.Feature2D_Star_lineThresholdProjected,
        st.Feature2D_Star_lineThresholdBinarized,
        st.Feature2D_Star_suppressNonmaxSize]), none)
    else (none, none)
  else if index = 7 then
    if QStringList.at strategies index = "SURF".toList then
      if st.Feature2D_SURF_gpu = true ∧ deviceCount ≠ 0 then
        (none, some (.GPUSURF [
          st.Feature2D_SURF_hessianThreshold,
          st.Feature2D_SURF_nOctaves,
          st.Feature2D_SURF_nOctaveLayers,
          st.Feature2D_SURF_extended,
          st.Feature2D_SURF_keypointsRatio,
          st.Feature2D_SURF_upright]))
      else
        (some (.SURF [
          st.Feature2D_SURF_hessianThreshold,
          st.Feature2D_SURF_nOctaves,
          st.Feature2D_SURF_nOctaveLayers,
          st.Feature2D_SURF_extended,
          st.Feature2D_SURF_upright]), none)
    else (none, none)
  else if index = 8 then
    if QStringList.at strategies index = "BRISK".toList then
      (some (.BRISK [
        st.Feature2D_BRISK_thresh,
        st.Feature2D_BRISK_octaves,
        st.Feature2D_BRISK_patternScale]), none)
    else (none, none)
  else (none, none)

/-- The locals `detector` and `detectorGPU` of `Settings::createKeypointDetector`
when the `Q_ASSERT` is reached (source lines 315-490). -/
def createKeypointDetector_candidates (st : Settings) (deviceCount : Int) :
    Option cv.FeatureDetector × Option GPUFeature2D :=
  let str := st.Feature2D_1Detector
  let split := split ':' str
  if split.length = 2 then
    match toInt (split.headD []) with
    | some index =>
      let strategies := FindObject.split ';' (split.getLastD [])
      if strategies.length = 9 ∧ index ≥ 0 ∧ index < 9 then
        createKeypointDetector_switch st deviceCount strategies index
      else (none, none)
    | none => (none, none)
  else (none, none)

/-- The function `Settings::createKeypointDetector`: the candidates, the
`Q_ASSERT(detectorGPU!=0 || detector!=0)`, then the handle around the
accelerated candidate when there is one and around the other otherwise. -/
def createKeypointDetector (st : Settings) (deviceCount : Int) : Except Abort KeypointDetector :=
  let (detector, detectorGPU) := createKeypointDetector_candidates st deviceCount
  if detectorGPU.isSome ∨ detector.isSome then
    if detectorGPU.isSome then KeypointDetector.ofGPUFeature2D detectorGPU
    else KeypointDetector.ofFeatureDetector detector
  else .error (.assertion "detectorGPU!=0 || detector!=0")

/-! ## `Settings::createDescriptorExtractor` -/

/-- The `switch(index)` of `Settings::createDescriptorExtractor` (source lines
518-622): the values of the locals `extractor` and `extractorGPU` after it. -/
def createDescriptorExtractor_switch (st : Settings) (deviceCount : Int) (strategies : List QString)
    (index : Int) : Option cv.DescriptorExtractor × Option GPUFeature2D :=
  if index = 0 then
    if QStringList.at strategies index = "Brief".toList then
      (some (.BriefDescriptorExtractor [st.Feature2D_Brief_bytes]), none)
    else (none, none)
  else if index = 1 then
    if QStringList.at strategies index = "ORB".toList then
      if st.Feature2D_ORB_gpu = true ∧ deviceCount ≠ 0 then
        (none, some (.GPUORB [
          st.Feature2D_ORB_nFeatures,
          st.Feature2D_ORB_scaleFactor,
          st.Feature2D_ORB_nLevels,
          st.Feature2D_ORB_edgeThreshold,
          st.Feature2D_ORB_firstLevel,
          st.Feature2D_ORB_WTA_K,
          st.Feature2D_ORB_scoreType,
          st.Feature2D_ORB_patchSize,
          st.Feature2D_Fast_threshold,
          st.Feature2D_Fast_nonmaxSuppression]))
      else
        (some (.ORB [
          st.Feature2D_ORB_nFeatures,
          st.Feature2D_ORB_scaleFactor,
          st.Feature2D_ORB_nLevels,
          st.Feature2D_ORB_edgeThreshold,
          st.Feature2D_ORB_firstLevel,
          st.Feature2D_ORB_WTA_K,
          st.Feature2D_ORB_scoreType,
          st.Feature2D_ORB_patchSize]), none)
    else (none, none)
  else if index = 2 then
    if QStringList.at strategies index = "SIFT".toList then
      (some (.SIFT [
        st.Feature2D_SIFT_nfeatures,
        st.Feature2D_SIFT_nOctaveLayers,
        st.Feature2D_SIFT_contrastThreshold,
        st.Feature2D_SIFT_edgeThreshold,
        st.Feature2D_SIFT_sigma]), none)
    else (none, none)
  else if index = 3 then
    if QStringList.at strategies index = "SURF".toList then
      if st.Feature2D_SURF_gpu = true ∧ deviceCount ≠ 0 then
        (none, some (.GPUSURF [
          st.Feature2D_SURF_hessianThreshold,
          st.Feature2D_SURF_nOctaves,
          st.Feature2D_SURF_nOctaveLayers,
          st.Feature2D_SURF_extended,
          st.Feature2D_SURF_keypointsRatio,
          st.Feature2D_SURF_upright]))
      else
        (some (.SURF [
          st.Feature2D_SURF_hessianThreshold,
          st.Feature2D_SURF_nOctaves,
          st.Feature2D_SURF_nOctaveLayers,
          st.Feature2D_SURF_extended,
          st.Feature2D_SURF_upright]), none)
    else (none, none)
  else if index = 4 then
    if QStringList.at strategies index = "BRISK".toList then
      (some (.BRISK [
        st.Feature2D_BRISK_thresh,
        st.Feature2D_BRISK_octaves,
        st.Feature2D_BRISK_patternScale]), none)
    else (none, none)
  else if index = 5 then
    if QStringList.at strategies index = "FREAK".toList then
      (some (.FREAK [
        st.Feature2D_FREAK_orientationNormalized,
        st.Feature2D_FREAK_scaleNormalized,
        st.Feature2D_FREAK_patternScale,
        st.Feature2D_FREAK_nOctaves]), none)
    else (none, none)
  else (none, none)

/-- The locals `extractor` and `extractorGPU` of
`Settings::createDescriptorExtractor` when the `Q_ASSERT` is reached (source
lines 505-625). -/
def createDescriptorExtractor_candidates (st : Settings) (deviceCount : Int) :
    Option cv.DescriptorExtractor × Option GPUFeature2D :=
  let str := st.Feature2D_2Descriptor
  let split := split ':' str
  if split.length = 2 then
    match toInt (split.headD []) with
    | some index =>
      let strategies := FindObject.split ';' (split.getLastD [])
      if strategies.length = 6 ∧ index ≥ 0 ∧ index < 6 then
        createDescriptorExtractor_switch st deviceCount strategies index
      else (none, none)
    | none => (none, none)
  else (none, none)

/-- The function `Settings::createDescriptorExtractor`: the candidates, the
`Q_ASSERT(extractorGPU!=0 || extractor!=0)`, then the handle. -/
def createDescriptorExtractor (st : Settings) (deviceCount : Int) :
    Except Abort DescriptorExtractor :=
  let (extractor, extractorGPU) := createDescriptorExtractor_candidates st deviceCount
  if extractorGPU.isSome ∨ extractor.isSome then
    if extractorGPU.isSome then DescriptorExtractor.ofGPUFeature2D extractorGPU
    else DescriptorExtractor.ofDescriptorExtractor extractor
  else .error (.assertion "extractorGPU!=0 || extractor!=0")

/-! ## Nearest-neighbor index, distance type, homography method -/

/-- The enumerator `cvflann::FLANN_CENTERS_RANDOM`. -/
def FLANN_CENTERS_RANDOM : Int := 0

/-- The enumerator `cvflann::FLANN_CENTERS_GONZALES`. -/
def FLANN_CENTERS_GONZALES : Int := 1

/-- The enumerator `cvflann::FLANN_CENTERS_KMEANSPP`. -/
def FLANN_CENTERS_KMEANSPP : Int := 2

/-- The enumerator `cvflann::FLANN_DIST_L2`. -/
def FLANN_DIST_L2 : Int := 1

/-- The constant `cv::LMEDS`. -/
def cv.LMEDS : Int := 4

/-- The constant `cv::RANSAC`. -/
def cv.RANSAC : Int := 8

/-- The local `centers_init` of the KMeans and the Composite branch of
`Settings::createFlannIndexParams` (source lines 690-701 and 713-724, the same
statements on the two nested strategy codes): the default policy, replaced by
the cast of the parsed integer when the nested code has two `:` parts and the
first one parses. -/
def createFlannIndexParams_centers_init (str : QString) : Int :=
  let centers_init := FLANN_CENTERS_RANDOM
  let split := split ':' str
  if split.length = 2 then
    match toInt (split.headD []) with
    | some index => index
    | none => centers_init
  else centers_init

/-- The `switch(index)` of `Settings::createFlannIndexParams` (source lines
670-758): the value of the local `params` after it. -/
def createFlannIndexParams_switch (st : Settings) (strategies : List QString) (index : Int) :
    Option cv.flann.IndexParams :=
  if index = 0 then
    if QStringList.at strategies index = "Linear".toList then
      some .LinearIndexParams
    else none
  else if index = 1 then
    if QStringList.at strategies index = "KDTree".toList then
      some (.KDTreeIndexParams [st.NearestNeighbor_KDTree_trees])
    else none
  else if index = 2 then
    if QStringList.at strategies index = "KMeans".toList then
      some (.KMeansIndexParams
        st.NearestNeighbor_KMeans_branching
        st.NearestNeighbor_KMeans_iterations
        (createFlannIndexParams_centers_init st.NearestNeighbor_KMeans_centers_init)
        st.NearestNeighbor_KMeans_cb_index)
    else none
  else if index = 3 then
    if QStringList.at strategies index = "Composite".toList then
      some (.CompositeIndexParams
        st.NearestNeighbor_Composite_trees
        st.NearestNeighbor_Composite_branching
        st.NearestNeighbor_Composite_iterations
        (createFlannIndexParams_centers_init st.NearestNeighbor_Composite_centers_init)
        st.NearestNeighbor_Composite_cb_index)
    else none
  else if index = 4 then
    if QStringList.at strategies index = "Autotuned".toList then
      some (.AutotunedIndexParams [
        st.NearestNeighbor_Autotuned_target_precision,
        st.NearestNeighbor_Autotuned_build_weight,
        st.NearestNeighbor_Autotuned_memory_weight,
        st.NearestNeighbor_Autotuned_sample_fraction])
    else none
  else if index = 5 then
    if QStringList.at strategies index = "Lsh".toList then
      some (.LshIndexParams [
        st.NearestNeighbor_Lsh_table_number,
        st.NearestNeighbor_Lsh_key_size,
        st.NearestNeighbor_Lsh_multi_probe_level])
    else none
  else none

/-- The local `params` of `Settings::createFlannIndexParams` before the final
null test (source lines 658-761). -/
def createFlannIndexParams_params (st : Settings) : Option cv.flann.IndexParams :=
  let str := st.NearestNeighbor_1Strategy
  let split := split ':' str
  if split.length = 2 then
    match toInt (split.headD []) with
    | some index =>
      let strategies := FindObject.split ';' (split.getLastD [])
      if strategies.length = 6 ∧ index ≥ 0 ∧ index < 6 then
        createFlannIndexParams_switch st strategies index
      else none
    | none => none
  else none

/-- The function `Settings::createFlannIndexParams`; the result is the returned
pointer. -/
def createFlannIndexParams (st : Settings) : Option cv.flann.IndexParams :=
  match createFlannIndexParams_params st with
  | some params => some params
  | none => some (.KDTreeIndexParams [])

/-- The function `Settings::getFlannDistanceType`; the result is the integer
value of the `cvflann::flann_distance_t` returned. -/
def getFlannDistanceType (st : Settings) : Int :=
  let distance := FLANN_DIST_L2
  let str := st.NearestNeighbor_2Distance_type
  let split := split ':' str
  if split.length = 2 then
    match toInt (split.headD []) with
    | some index =>
      let strategies := FindObject.split ';' (split.getLastD [])
      if strategies.length = 9 ∧ index ≥ 0 ∧ index ≤ 8 then index + 1
      else distance
    | none => distance
  else distance

/-- The function `Settings::getFlannSearchParams`: the three arguments of the
`cv::flann::SearchParams` built. -/
def getFlannSearchParams (st : Settings) : List QVariant :=
  [st.NearestNeighbor_7search_checks,
   st.NearestNeighbor_8search_eps,
   st.NearestNeighbor_9search_sorted]

/-- The function `Settings::getHomographyMethod`. The `switch` of the source is
on the local `method`, which holds `cv::RANSAC` when it is reached. -/
def getHomographyMethod (st : Settings) : Int :=
  let method := cv.RANSAC
  let str := st.Homography_method
  let split := split ':' str
  if split.length = 2 then
    match toInt (split.headD []) with
    | some index =>
      let strategies := FindObject.split ';' (split.getLastD [])
      if strategies.length = 2 ∧ index ≥ 0 ∧ index < 2 then
        if method = 0 then cv.LMEDS else cv.RANSAC
      else method
    | none => method
  else method

/-! ## The accelerated implementations and the dispatch wrappers -/

/-- A `cv::KeyPoint`, by its position. -/
structure cv.KeyPoint where
  x : Int
  y : Int
  deriving DecidableEq, Repr

/-- A `cv::Mat` or `cv::gpu::GpuMat`, by its size and element type. -/
structure cv.Mat where
  rows : Nat
  cols : Nat
  type : Int
  deriving DecidableEq, Repr

/-- The matrix `cv::Mat()`. -/
def cv.Mat.nil : cv.Mat := { rows := 0, cols := 0, type := 0 }

/-- The call `empty()` of a matrix. -/
def cv.Mat.empty (m : cv.Mat) : Bool := m.rows = 0 || m.cols = 0

/-- The element type `CV_8U`. -/
def CV_8U : Int := 0

/-- The element type `CV_32F`. -/
def CV_32F : Int := 5

/-- The routines of the vision library that the implementations call: the
`operator()` of the member `surf_`, `fast_` or `orb_` of an accelerated object
(detection, then detection with description into a fresh `GpuMat`), and
`detect` / `compute` of a general-purpose object. Each one either returns its
outputs or throws; a routine that throws leaves the caller's variables as they
were. -/
structure VisionLibrary where
  gpuDetect : GPUFeature2D → cv.Mat → List cv.KeyPoint → Except Abort (List cv.KeyPoint)
  gpuDescribe : GPUFeature2D → cv.Mat → List cv.KeyPoint →
    Except Abort (List cv.KeyPoint × cv.Mat)
  detect : cv.FeatureDetector → cv.Mat → List cv.KeyPoint → Except Abort (List cv.KeyPoint)
  compute : cv.DescriptorExtractor → cv.Mat → List cv.KeyPoint →
    Except Abort (List cv.KeyPoint × cv.Mat)

/-- The statement `try { call } catch(cv::Exception &e) { printf(...); }`: a
`cv::Exception` is swallowed and the variables keep the values `unchanged`,
everything else passes. -/
def tryCatchCvException {α : Type} (call : Except Abort α) (unchanged : α) : Except Abort α :=
  match call with
  | .error (.cvException _) => .ok unchanged
  | r => r

/-- The virtual call `GPUFeature2D::detectKeypoints` (source lines 155-171,
222-226, 265-279); the result is `keypoints` after the call. -/
def GPUFeature2D.detectKeypoints (lib : VisionLibrary) (self : GPUFeature2D) (image : cv.Mat)
    (keypoints : List cv.KeyPoint) : Except Abort (List cv.KeyPoint) :=
  match self with
  | .GPUSURF _ => tryCatchCvException (lib.gpuDetect self image keypoints) keypoints
  | .GPUFAST _ => lib.gpuDetect self image keypoints
  | .GPUORB _ => tryCatchCvException (lib.gpuDetect self image keypoints) keypoints

/-- The download step that ends `computeDescriptors` of `GPUSURF` and `GPUORB`:
an empty `descriptorsGPU` gives `cv::Mat()`, another one is asserted to have
the element type `expected` and copied. -/
def downloadDescriptors (expected : Int) (descriptorsGPU : cv.Mat) : Except Abort cv.Mat :=
  if descriptorsGPU.empty then .ok cv.Mat.nil
  else if descriptorsGPU.type = expected then .ok descriptorsGPU
  else .error (.assertion "descriptorsGPU.type()")

/-- The virtual call `GPUFeature2D::computeDescriptors` (source lines 173-203,
227-232, 281-308); the result is `keypoints` and `descriptors` after the call. -/
def GPUFeature2D.computeDescriptors (lib : VisionLibrary) (self : GPUFeature2D) (image : cv.Mat)
    (keypoints : List cv.KeyPoint) (descriptors : cv.Mat) :
    Except Abort (List cv.KeyPoint × cv.Mat) :=
  match self with
  | .GPUSURF _ =>
    match tryCatchCvException (lib.gpuDescribe self image keypoints) (keypoints, cv.Mat.nil) with
    | .ok (keypoints, descriptorsGPU) =>
      match downloadDescriptors CV_32F descriptorsGPU with
      | .ok descriptors => .ok (keypoints, descriptors)
      | .error e => .error e
    | .error e => .error e
  | .GPUFAST _ => .ok (keypoints, descriptors)
  | .GPUORB _ =>
    match tryCatchCvException (lib.gpuDescribe self image keypoints) (keypoints, cv.Mat.nil) with
    | .ok (keypoints, descriptorsGPU) =>
      match downloadDescriptors CV_8U descriptorsGPU with
      | .ok descriptors => .ok (keypoints, descriptors)
      | .error e => .error e
    | .error e => .error e

/-- The function `KeypointDetector::detect`. -/
def KeypointDetector.detect (lib : VisionLibrary) (self : KeypointDetector) (image : cv.Mat)
    (keypoints : List cv.KeyPoint) : Except Abort (List cv.KeyPoint) :=
  match self.featureDetector_ with
  | some featureDetector => lib.detect featureDetector image keypoints
  | none =>
    match self.gpuFeature2D_ with
    | some gpuFeature2D => gpuFeature2D.detectKeypoints lib image keypoints
    | none => .error .nullDereference

/-- The function `DescriptorExtractor::compute`. -/
def DescriptorExtractor.compute (lib : VisionLibrary) (self : DescriptorExtractor)
    (image : cv.Mat) (keypoints : List cv.KeyPoint) (descriptors : cv.Mat) :
    Except Abort (List cv.KeyPoint × cv.Mat) :=
  match self.descriptorExtractor_ with
  | some descriptorExtractor => lib.compute descriptorExtractor image keypoints
  | none =>
    match self.gpuFeature2D_ with
    | some gpuFeature2D => gpuFeature2D.computeDescriptors lib image keypoints descriptors
    | none => .error .nullDereference

/-! ## The Parameter Store and `Settings::loadSettings` -/

/-- The declared type of a parameter. -/
inductive TypeTag where
  | int
  | float
  | bool
  | string
  | stringList
  deriving DecidableEq, Repr

/-- A `ParametersMap` (a `QMap<QString, QVariant>`), as the list of its
entries. -/
abbrev ParametersMap := List (QString × QVariant)

/-- The call `QMap::value(key)`, `none` when the key is absent. -/
def mapValue {β : Type} : List (QString × β) → QString → Option β
  | [], _ => none
  | (k, v) :: rest, key => if k = key then some v else mapValue rest key

/-- The call `QMap::contains(key)`. -/
def mapContains {β : Type} (m : List (QString × β)) (key : QString) : Bool :=
  (mapValue m key).isSome

/-- The assignment `map[key] = value`: the entry is replaced, or added when the
key is new. -/
def mapInsert {β : Type} : List (QString × β) → QString → β → List (QString × β)
  | [], key, value => [(key, value)]
  | (k, v) :: rest, key, value =>
    if k = key then (k, value) :: rest else (k, v) :: mapInsert rest key value

/-- The static members of `Settings`: `defaultParameters_`, `parameters_` and
`parametersType_`. -/
structure ParameterStore where
  defaultParameters_ : ParametersMap
  parameters_ : ParametersMap
  parametersType_ : List (QString × TypeTag)

/-- The call `QVariant::isValid()`. -/
def QVariant.isValid : QVariant → Bool
  | .invalid => false
  | _ => true

/-- The call `QVariant::toString()`. -/
def QVariant.toString : QVariant → QString
  | .invalid => []
  | .bool b => if b then "true".toList else "false".toList
  | .int n => (Int.repr n).toList
  | .real text => text
  | .string s => s
  | .byteArray bytes => bytes.map Char.ofNat

/-- Modelled from the spec: `get(key)` of the Parameter Store (the function
`Settings::getParameter`, defined in `Settings.h`, which is not among the
sources). It fails with `UnknownKeyError` if the key is absent from the
defaults, otherwise it returns the current value. -/
def getParameter (store : ParameterStore) (key : QString) : Except Abort QVariant :=
  if mapContains store.defaultParameters_ key then
    .ok ((mapValue store.parameters_ key).getD .invalid)
  else .error (.unknownKeyError key)

/-- Modelled from the spec: `set(key, value)` of the Parameter Store (the
function `Settings::setParameter`, defined in `Settings.h`, which is not among
the sources). It fails with `UnknownKeyError` if the key is absent, with
`TypeMismatchError` if the shape of the value disagrees with the declared type
tag, except for the string-list type, and otherwise overwrites the current
value. The spec does not say which shapes agree with which tag: that relation
is the argument `shapeAgrees`. -/
def setParameter (shapeAgrees : TypeTag → QVariant → Bool) (store : ParameterStore)
    (key : QString) (value : QVariant) : Except Abort ParameterStore :=
  if mapContains store.defaultParameters_ key then
    match mapValue store.parametersType_ key with
    | some .stringList =>
      .ok { store with parameters_ := mapInsert store.parameters_ key value }
    | some tag =>
      if shapeAgrees tag value then
        .ok { store with parameters_ := mapInsert store.parameters_ key value }
      else .error (.typeMismatchError key)
    | none => .ok { store with parameters_ := mapInsert store.parameters_ key value }
  else .error (.unknownKeyError key)

/-- The call `QChar::toAscii()` followed by the conversion back to a `QChar`
in the assignment `str[0] = index.toAscii()`: a character above `0xff` becomes
the null character. -/
def toAscii (c : Char) : Char :=
  if c.toNat > 255 then Char.ofNat 0 else c

/-- The call `QString::size()`: the number of 16-bit units of the string, one
for a character up to `0xFFFF` and two for a character above it. -/
def QString.size (s : QString) : Nat :=
  (s.map fun c => if c.toNat > 0xFFFF then 2 else 1).sum

/-- The assignment `str[0] = c` on a string whose first character is one
16-bit unit; an empty string is grown to one character. -/
def setFirst (c : Char) : QString → QString
  | [] => [c]
  | _ :: rest => c :: rest

/-- The body of the loop of `Settings::loadSettings` for one key of
`defaultParameters_` (source lines 52-68). `ini key` is `ini.value(key,
QVariant())`. -/
def loadSettings_key (shapeAgrees : TypeTag → QVariant → Bool) (ini : QString → QVariant)
    (store : ParameterStore) (key : QString) : Except Abort ParameterStore :=
  let value := ini key
  if value.isValid then
    let str := value.toString
    if ';' ∈ str then
      match getParameter store key with
      | .ok current =>
        if QString.size str ≠ QString.size current.toString then
          let index := str.headD (Char.ofNat 0)
          match getParameter store key with
          | .ok current =>
            let str := setFirst (toAscii index) current.toString
            setParameter shapeAgrees store key (.string str)
          | .error e => .error e
        else setParameter shapeAgrees store key value
      | .error e => .error e
    else setParameter shapeAgrees store key value
  else .ok store

/-- The loop of `Settings::loadSettings` over the keys `keys`, in order. -/
def loadSettings_loop (shapeAgrees : TypeTag → QVariant → Bool) (ini : QString → QVariant) :
    ParameterStore → List QString → Except Abort ParameterStore
  | store, [] => .ok store
  | store, key :: keys =>
    match loadSettings_key shapeAgrees ini store key with
    | .ok store => loadSettings_loop shapeAgrees ini store keys
    | .error e => .error e

/-- The function `Settings::loadSettings`, on the parameters: the loop over the
keys of `defaultParameters_` (source lines 50-69). The two window blobs are
written to other variables and are left out. -/
def loadSettings (shapeAgrees : TypeTag → QVariant → Bool) (ini : QString → QVariant)
    (store : ParameterStore) : Except Abort ParameterStore :=
  loadSettings_loop shapeAgrees ini store (store.defaultParameters_.map Prod.fst)

/-- The list of alternative names of a strategy code, read as
`Settings::currentDetectorType` does: `split(':').last().split(';')`. -/
def alternativeNames (value : QString) : List QString :=
  split ';' ((split ':' value).getLastD [])

/-! ## `Settings::saveSettings` -/

/-- The call `ini.value(key, QVariant())` on a settings file, the file being
the list of its entries: the value stored under the key, an invalid variant
when there is none. -/
def iniValue (ini : ParametersMap) (key : QString) : QVariant :=
  (mapValue ini key).getD .invalid

/-- The body of the loop of `Settings::saveSettings` for one entry of
`parameters_` (source lines 101-109): `ini.setValue` of the value, or of its
text with 6 significant digits when the type of the key is `float`. The text
`QString::number(value.toFloat(), 'g', 6)` is floating-point formatting and
is the argument `number_g6`. -/
def saveSettings_entry (number_g6 : QVariant → QString)
    (parametersType_ : List (QString × TypeTag)) (ini : ParametersMap)
    (entry : QString × QVariant) : ParametersMap :=
  if mapValue parametersType_ entry.1 = some .float then
    mapInsert ini entry.1 (.string (number_g6 entry.2))
  else mapInsert ini entry.1 entry.2

/-- The function `Settings::saveSettings` (source lines 98-118): `ini` is the
content of the file when it is opened, the result is its content afterwards. -/
def saveSettings (number_g6 : QVariant → QString) (ini : ParametersMap)
    (store : ParameterStore) (windowGeometry windowState : List Nat) : ParametersMap :=
  let ini := store.parameters_.foldl (saveSettings_entry number_g6 store.parametersType_) ini
  let ini :=
    if windowGeometry ≠ [] then mapInsert ini "windowGeometry".toList (.byteArray windowGeometry)
    else ini
  if windowState ≠ [] then mapInsert ini "windowState".toList (.byteArray windowState)
  else ini

/-- A save followed by a load of the file written, the store being the same
for both calls. -/
def saveThenLoad (shapeAgrees : TypeTag → QVariant → Bool) (number_g6 : QVariant → QString)
    (ini : ParametersMap) (store : ParameterStore) (windowGeometry windowState : List Nat) :
    Except Abort ParameterStore :=
  loadSettings shapeAgrees
    (iniValue (saveSettings number_g6 ini store windowGeometry windowState)) store

/-! ## `Settings::currentDetectorType` -/

/-- The function `Settings::currentDetectorType` (source lines 638-642).
`toInt()` without `ok` gives 0 when the text is not an integer; `at(index)`
out of the bounds of the list fails the assertion of `QList::at`. -/
def currentDetectorType (st : Settings) : Except Abort QString :=
  let index := (toInt ((split ':' st.Feature2D_1Detector).headD [])).getD 0
  let list := split ';' ((split ':' st.Feature2D_1Detector).getLastD [])
  if 0 ≤ index ∧ index < list.length then .ok (QStringList.at list index)
  else .error (.assertion "QList<T>::at: index out of range")

/-! ## Expected names and observations -/

/-- The names that `Settings::createKeypointDetector` compares the alternative
at the positions 0 to 8 with. -/
def detectorNames : List QString :=
  ["Dense".toList, "Fast".toList, "GFTT".toList, "MSER".toList, "ORB".toList,
   "SIFT".toList, "Star".toList, "SURF".toList, "BRISK".toList]

/-- The names that `Settings::createDescriptorExtractor` compares the
alternative at the positions 0 to 5 with. -/
def descriptorNames : List QString :=
  ["Brief".toList, "ORB".toList, "SIFT".toList, "SURF".toList, "BRISK".toList,
   "FREAK".toList]

/-- The names that `Settings::createFlannIndexParams` compares the alternative
at the positions 0 to 5 with. -/
def nearestNeighborNames : List QString :=
  ["Linear".toList, "KDTree".toList, "KMeans".toList, "Composite".toList,
   "Autotuned".toList, "Lsh".toList]

/-- The algorithm that a general-purpose detector implements, by the name the
factory uses for it. -/
def cv.FeatureDetector.algorithm : cv.FeatureDetector → QString
  | .DenseFeatureDetector _ => "Dense".toList
  | .FastFeatureDetector _ => "Fast".toList
  | .GFTTDetector _ => "GFTT".toList
  | .MSER _ => "MSER".toList
  | .ORB _ => "ORB".toList
  | .SIFT _ => "SIFT".toList
  | .StarFeatureDetector _ => "Star".toList
  | .SURF _ => "SURF".toList
  | .BRISK _ => "BRISK".toList

/-- The algorithm that an accelerated implementation implements, by the name
the factory uses for it. -/
def GPUFeature2D.algorithm : GPUFeature2D → QString
  | .GPUSURF _ => "SURF".toList
  | .GPUFAST _ => "Fast".toList
  | .GPUORB _ => "ORB".toList

/-- The algorithms constructed by `Settings::createKeypointDetector`: one name
for each candidate that is set. -/
def constructedDetectors (candidates : Option cv.FeatureDetector × Option GPUFeature2D) :
    List QString :=
  (candidates.1.map cv.FeatureDetector.algorithm).toList ++
    (candidates.2.map GPUFeature2D.algorithm).toList

/-- The decode rule in the words of the specification (section 4.2): two parts
around `:`, an integer first part, as many `;` alternatives as expected, the
index within bounds, and the expected name at the index equal to the name
found there; otherwise empty. -/
def decode (raw : QString) (expectedAlternatives : List QString) : Option Int :=
  let parts := split ':' raw
  if parts.length = 2 then
    match toInt (parts.headD []) with
    | some index =>
      let names := split ';' (parts.getLastD [])
      if names.length = expectedAlternatives.length then
        if 0 ≤ index ∧ index < names.length then
          if QStringList.at expectedAlternatives index = QStringList.at names index then
            some index
          else none
        else none
      else none
    | none => none
  else none

/-! ## Example inputs -/

/-- A store content used in the examples: the stock strategy codes with SURF
and KDTree selected, accelerated switches off. -/
def exampleSettings : Settings where
  Feature2D_1Detector := "7:Dense;Fast;GFTT;MSER;ORB;SIFT;Star;SURF;BRISK".toList
  Feature2D_2Descriptor := "3:Brief;ORB;SIFT;SURF;BRISK;FREAK".toList
  Feature2D_Dense_initFeatureScale := .real "1".toList
  Feature2D_Dense_featureScaleLevels := .int 1
  Feature2D_Dense_featureScaleMul := .real "0.1".toList
  Feature2D_Dense_initXyStep := .int 6
  Feature2D_Dense_initImgBound := .int 0
  Feature2D_Dense_varyXyStepWithScale := .bool true
  Feature2D_Dense_varyImgBoundWithScale := .bool false
  Feature2D_Fast_gpu := false
  Feature2D_Fast_threshold := .int 10
  Feature2D_Fast_nonmaxSuppression := .bool true
  Feature2D_GFTT_maxCorners := .int 1000
  Feature2D_GFTT_qualityLevel := .real "0.01".toList
  Feature2D_GFTT_minDistance := .real "1".toList
  Feature2D_GFTT_blockSize := .int 3
  Feature2D_GFTT_useHarrisDetector := .bool false
  Feature2D_GFTT_k := .real "0.04".toList
  Feature2D_MSER_delta := .int 5
  Feature2D_MSER_minArea := .int 60
  Feature2D_MSER_maxArea := .int 14400
  Feature2D_MSER_maxVariation := .real "0.25".toList
  Feature2D_MSER_minDiversity := .real "0.2".toList
  Feature2D_MSER_maxEvolution := .int 200
  Feature2D_MSER_areaThreshold := .real "1.01".toList
  Feature2D_MSER_minMargin := .real "0.003".toList
  Feature2D_MSER_edgeBlurSize := .int 5
  Feature2D_ORB_gpu := false
  Feature2D_ORB_nFeatures := .int 500
  Feature2D_ORB_scaleFactor := .real "1.2".toList
  Feature2D_ORB_nLevels := .int 8
  Feature2D_ORB_edgeThreshold := .int 31
  Feature2D_ORB_firstLevel := .int 0
  Feature2D_ORB_WTA_K := .int 2
  Feature2D_ORB_scoreType := .int 0
  Feature2D_ORB_patchSize := .int 31
  Feature2D_SIFT_nfeatures := .int 0
  Feature2D_SIFT_nOctaveLayers := .int 3
  Feature2D_SIFT_contrastThreshold := .real "0.04".toList
  Feature2D_SIFT_edgeThreshold := .real "10".toList
  Feature2D_SIFT_sigma := .real "1.6".toList
  Feature2D_Star_maxSize := .int 45
  Feature2D_Star_responseThreshold := .int 30
  Feature2D_Star_lineThresholdProjected := .int 10
  Feature2D_Star_lineThresholdBinarized := .int 8
  Feature2D_Star_suppressNonmaxSize := .int 5
  Feature2D_SURF_gpu := false
  Feature2D_SURF_hessianThreshold := .real "600".toList
  Feature2D_SURF_nOctaves := .int 4
  Feature2D_SURF_nOctaveLayers := .int 2
  Feature2D_SURF_extended := .bool true
  Feature2D_SURF_keypointsRatio := .real "0.01".toList
  Feature2D_SURF_upright := .bool false
  Feature2D_BRISK_thresh := .int 30
  Feature2D_BRISK_octaves := .int 3
  Feature2D_BRISK_patternScale := .real "1".toList
  Feature2D_Brief_bytes := .int 32
  Feature2D_FREAK_orientationNormalized := .bool true
  Feature2D_FREAK_scaleNormalized := .bool true
  Feature2D_FREAK_patternScale := .real "22".toList
  Feature2D_FREAK_nOctaves := .int 4
  NearestNeighbor_1Strategy := "1:Linear;KDTree;KMeans;Composite;Autotuned;Lsh".toList
  NearestNeighbor_2Distance_type := "0:L2;L1;MINKOWSKI;MAX;HIST;HELLINGER;CS;KL;HAMMING".toList
  NearestNeighbor_7search_checks := .int 32
  NearestNeighbor_8search_eps := .real "0".toList
  NearestNeighbor_9search_sorted := .bool true
  NearestNeighbor_KDTree_trees := .int 8
  NearestNeighbor_KMeans_branching := .int 32
  NearestNeighbor_KMeans_iterations := .int 11
  NearestNeighbor_KMeans_centers_init := "0:RANDOM;GONZALES;KMEANSPP".toList
  NearestNeighbor_KMeans_cb_index := .real "0.2".toList
  NearestNeighbor_Composite_trees := .int 4
  NearestNeighbor_Composite_branching := .int 32
  NearestNeighbor_Composite_iterations := .int 11
  NearestNeighbor_Composite_centers_init := "0:RANDOM;GONZALES;KMEANSPP".toList
  NearestNeighbor_Composite_cb_index := .real "0.2".toList
  NearestNeighbor_Autotuned_target_precision := .real "0.8".toList
  NearestNeighbor_Autotuned_build_weight := .real "0.01".toList
  NearestNeighbor_Autotuned_memory_weight := .real "0".toList
  NearestNeighbor_Autotuned_sample_fraction := .real "0.1".toList
  NearestNeighbor_Lsh_table_number := .int 20
  NearestNeighbor_Lsh_key_size := .int 10
  NearestNeighbor_Lsh_multi_probe_level := .int 2
  Homography_method := "1:LMEDS;RANSAC".toList

/-- The example store with the detector code of ORB and the ORB accelerated
switch on. -/
def orbAcceleratedSettings : Settings :=
  { exampleSettings with
    Feature2D_1Detector := "4:Dense;Fast;GFTT;MSER;ORB;SIFT;Star;SURF;BRISK".toList
    Feature2D_ORB_gpu := true }

/-- The example store with a detector code whose index is out of range. -/
def outOfRangeDetectorSettings : Settings :=
  { exampleSettings with
    Feature2D_1Detector := "9:Dense;Fast;GFTT;MSER;ORB;SIFT;Star;SURF;BRISK".toList }

/-- The example store with the homography code of LMEDS. -/
def lmedsSettings : Settings :=
  { exampleSettings with Homography_method := "0:LMEDS;RANSAC".toList }

/-- The example store with a nearest-neighbor code that has no `:`. -/
def undecodableStrategySettings : Settings :=
  { exampleSettings with NearestNeighbor_1Strategy := "KDTree".toList }

/-- The example store with index 1 in the distance code and the name `B` at
position 1. -/
def distanceBSettings : Settings :=
  { exampleSettings with NearestNeighbor_2Distance_type := "1:A;B;C;D;E;F;G;H;I".toList }

/-- The example store with index 1 in the distance code and the name `X` at
position 1. -/
def distanceXSettings : Settings :=
  { exampleSettings with NearestNeighbor_2Distance_type := "1:A;X;C;D;E;F;G;H;I".toList }

/-- The example store with KMeans selected and a nested code of one
alternative. -/
def kmeansOneAlternativeSettings : Settings :=
  { exampleSettings with
    NearestNeighbor_1Strategy := "2:Linear;KDTree;KMeans;Composite;Autotuned;Lsh".toList
    NearestNeighbor_KMeans_centers_init := "1:GONZALES".toList }

/-- The example store with Composite selected and the nested index 7. -/
def compositeIndexSevenSettings : Settings :=
  { exampleSettings with
    NearestNeighbor_1Strategy := "3:Linear;KDTree;KMeans;Composite;Autotuned;Lsh".toList
    NearestNeighbor_Composite_centers_init := "7:RANDOM;GONZALES;KMEANSPP".toList }

/-- The example store with KMeans selected and a nested code that has no `:`. -/
def kmeansNoColonSettings : Settings :=
  { exampleSettings with
    NearestNeighbor_1Strategy := "2:Linear;KDTree;KMeans;Composite;Autotuned;Lsh".toList
    NearestNeighbor_KMeans_centers_init := "GONZALES".toList }

/-- A vision library whose accelerated routines throw a `cv::Exception` on
every call. -/
def throwingLibrary : VisionLibrary where
  gpuDetect := fun _ _ _ => .error (.cvException "matrix size")
  gpuDescribe := fun _ _ _ => .error (.cvException "matrix size")
  detect := fun _ _ keypoints => .ok keypoints
  compute := fun _ _ keypoints => .ok (keypoints, cv.Mat.nil)

/-- A Parameter Store with one string-list parameter, whose value has the two
alternatives `ABC` and `D`. -/
def catalogStore : ParameterStore where
  defaultParameters_ := [("General/choice".toList, .string "0:ABC;D".toList)]
  parameters_ := [("General/choice".toList, .string "0:ABC;D".toList)]
  parametersType_ := [("General/choice".toList, .stringList)]

/-- A persisted file that gives `General/choice` three alternatives in a value
as long as the one of `catalogStore`. -/
def sameLengthIni : QString → QVariant :=
  fun key => if key = "General/choice".toList then .string "1:A;B;C".toList else .invalid

/-- A persisted file that gives `General/choice` three alternatives in a value
longer than the one of `catalogStore`. -/
def longerIni : QString → QVariant :=
  fun key => if key = "General/choice".toList then .string "1:A;B;CD".toList else .invalid

/-- A Parameter Store with a string-list, an integer and a float parameter, at
their default values. -/
def roundTripStore : ParameterStore where
  defaultParameters_ :=
    [("Feature2D/2Descriptor".toList, .string "1:Brief;ORB".toList),
     ("Feature2D/ORB_nLevels".toList, .int 8),
     ("Feature2D/ORB_scaleFactor".toList, .real "1.2".toList)]
  parameters_ :=
    [("Feature2D/2Descriptor".toList, .string "1:Brief;ORB".toList),
     ("Feature2D/ORB_nLevels".toList, .int 8),
     ("Feature2D/ORB_scaleFactor".toList, .real "1.2".toList)]
  parametersType_ :=
    [("Feature2D/2Descriptor".toList, .stringList),
     ("Feature2D/ORB_nLevels".toList, .int),
     ("Feature2D/ORB_scaleFactor".toList, .float)]

/-- A stand-in for the formatting of a float with 6 significant digits in the
examples: the digits, points and minus signs of the text of the variant. -/
def exampleNumber : QVariant → QString :=
  fun value => value.toString.filter (fun c => c.isDigit || c = '.' || c = '-')

/-- A persisted file that only holds a value for `Feature2D/ORB_nLevels`. -/
def levelsIni : QString → QVariant :=
  fun key => if key = "Feature2D/ORB_nLevels".toList then .string "4".toList else .invalid

/-! ## Strings: splitting and joining -/

theorem split_ne_nil (sep : Char) (s : QString) : split sep s ≠ [] := by
  induction s with
  | nil => simp [split]
  | cons c cs ih =>
    unfold split
    split
    · simp
    · split <;> simp

theorem split_of_not_mem (sep : Char) (s : QString) (h : sep ∉ s) : split sep s = [s] := by
  induction s with
  | nil => simp [split]
  | cons c cs ih =>
    have hc : c ≠ sep := fun e => h (by simp [e])
    have hcs : sep ∉ cs := fun e => h (by simp [e])
    simp [split, hc, ih hcs]

theorem split_append_sep (sep : Char) (a b : QString) (h : sep ∉ a) :
    split sep (a ++ sep :: b) = a :: split sep b := by
  induction a with
  | nil => simp [split]
  | cons c cs ih =>
    have hc : c ≠ sep := fun e => h (by simp [e])
    have hcs : sep ∉ cs := fun e => h (by simp [e])
    simp [split, hc, ih hcs]

theorem split_join (sep : Char) (names : List QString) (hne : names ≠ [])
    (h : ∀ n ∈ names, sep ∉ n) : split sep (join sep names) = names := by
  induction names with
  | nil => exact absurd rfl hne
  | cons p ps ih =>
    cases ps with
    | nil => simpa [join] using split_of_not_mem sep p (h p (by simp))
    | cons q qs =>
      have hp : sep ∉ p := h p (by simp)
      have hrest : ∀ n ∈ q :: qs, sep ∉ n := fun n hn => h n (List.mem_cons_of_mem _ hn)
      simp only [join]
      rw [split_append_sep sep p _ hp, ih (by simp) hrest]

theorem not_mem_join (c sep : Char) (names : List QString) (hsep : c ≠ sep)
    (h : ∀ n ∈ names, c ∉ n) : c ∉ join sep names := by
  induction names with
  | nil => simp [join]
  | cons p ps ih =>
    cases ps with
    | nil => simpa [join] using h p (by simp)
    | cons q qs =>
      have hp : c ∉ p := h p (by simp)
      have hrest : ∀ n ∈ q :: qs, c ∉ n := fun n hn => h n (List.mem_cons_of_mem _ hn)
      simp only [join, List.mem_append, List.mem_cons, not_or]
      exact ⟨hp, hsep, ih hrest⟩

theorem toInt_digitChar (i : Nat) (hi : i ≤ 9) : toInt [Nat.digitChar i] = some (i : Int) := by
  interval_cases i <;> rfl

theorem split_code (d : Char) (rest : QString) (hd : d ≠ ':') (hrest : ':' ∉ rest) :
    split ':' (d :: ':' :: rest) = [[d], rest] := by
  have := split_append_sep ':' [d] rest (by simpa using Ne.symm hd)
  simpa [split_of_not_mem ':' rest hrest] using this

theorem digitChar_ne_colon (i : Nat) (hi : i ≤ 9) : Nat.digitChar i ≠ ':' := by
  interval_cases i <;> decide

/-! ## The guards of the factories and the decode rule -/

theorem decode_eq_none_of_malformed (raw : QString) (expected : List QString)
    (h : (split ':' raw).length ≠ 2
      ∨ toInt ((split ':' raw).headD []) = none
      ∨ (split ';' ((split ':' raw).getLastD [])).length ≠ expected.length
      ∨ (∃ index, toInt ((split ':' raw).headD []) = some index
          ∧ (index < 0 ∨ (expected.length : Int) ≤ index))
      ∨ (∃ index, toInt ((split ':' raw).headD []) = some index
          ∧ QStringList.at (split ';' ((split ':' raw).getLastD [])) index
            ≠ QStringList.at expected index)) :
    decode raw expected = none := by
  unfold decode
  rcases h with h | h | h | ⟨n, hn, h⟩ | ⟨n, hn, h⟩
  · simp only [if_neg h]
  · simp only [h]
    split <;> rfl
  · simp only [if_neg h]
    split
    · split <;> rfl
    · rfl
  · simp only [hn]
    split
    · split
      · rename_i hlen
        rw [if_neg (by rw [hlen]; omega)]
      · rfl
    · rfl
  · simp only [hn, if_neg (Ne.symm h)]
    split
    · split
      · split <;> rfl
      · rfl
    · rfl

theorem decode_eq_some (raw : QString) (expected : List QString) (n : Int)
    (h : decode raw expected = some n) :
    (alternativeNames raw).length = expected.length ∧ 0 ≤ n ∧ n < expected.length ∧
      QStringList.at (alternativeNames raw) n = QStringList.at expected n := by
  unfold decode at h
  simp only [] at h
  split at h
  · split at h
    · rename_i index hint
      split at h
      · rename_i hlen
        split at h
        · rename_i hr
          split at h
          · rename_i hname
            have hn : index = n := Option.some.inj h
            subst hn
            exact ⟨hlen, hr.1, by rw [← hlen]; exact hr.2, hname.symm⟩
          · exact absurd h (by simp)
        · exact absurd h (by simp)
      · exact absurd h (by simp)
    · exact absurd h (by simp)
  · exact absurd h (by simp)

theorem createKeypointDetector_switch_mismatch (st : Settings) (deviceCount : Int)
    (strategies : List QString) (n : Int) (h0 : 0 ≤ n) (h9 : n < 9)
    (h : QStringList.at strategies n ≠ QStringList.at detectorNames n) :
    createKeypointDetector_switch st deviceCount strategies n = (none, none) := by
  interval_cases n <;> simp [QStringList.at, detectorNames] at h <;>
    simp [createKeypointDetector_switch, QStringList.at, h]

theorem guard_eq_decode {α : Type} (f : Int → α) (d : α) (raw : QString)
    (expected : List QString) (k : Nat) (ki : Int) (hk : expected.length = k)
    (hki : (k : Int) = ki)
    (hmis : ∀ n : Int, 0 ≤ n → n < ki →
      QStringList.at (alternativeNames raw) n ≠ QStringList.at expected n → f n = d) :
    (if (split ':' raw).length = 2 then
      match toInt ((split ':' raw).headD []) with
      | some index =>
        if (alternativeNames raw).length = k ∧ index ≥ 0 ∧ index < ki then f index else d
      | none => d
    else d) =
      match decode raw expected with
      | some index => f index
      | none => d := by
  unfold decode
  simp only []
  by_cases h2 : (split ':' raw).length = 2
  · rw [if_pos h2, if_pos h2]
    cases hint : toInt ((split ':' raw).headD []) with
    | none => rfl
    | some n =>
      simp only []
      change _ = match (if (alternativeNames raw).length = expected.length then
        if 0 ≤ n ∧ n < (alternativeNames raw).length then
          if QStringList.at expected n = QStringList.at (alternativeNames raw) n then some n
          else none
        else none
        else none) with
        | some index => f index
        | none => d
      by_cases hlen : (alternativeNames raw).length = expected.length
      · have hlen1 : (alternativeNames raw).length = k := by rw [hlen]; exact hk
        have hlen2 : ((alternativeNames raw).length : Int) = ki := by rw [hlen1]; exact hki
        by_cases hr : 0 ≤ n ∧ n < ki
        · by_cases hname : QStringList.at expected n = QStringList.at (alternativeNames raw) n
          · rw [if_pos ⟨hlen1, hr.1, hr.2⟩, if_pos hlen, if_pos (by rw [hlen2]; exact hr),
              if_pos hname]
          · rw [if_pos ⟨hlen1, hr.1, hr.2⟩, if_pos hlen, if_pos (by rw [hlen2]; exact hr),
              if_neg hname]
            exact hmis n hr.1 hr.2 (Ne.symm hname)
        · rw [if_neg (fun h => hr ⟨h.2.1, h.2.2⟩), if_pos hlen, if_neg (by rw [hlen2]; exact hr)]
      · have hlen1 : ¬ (alternativeNames raw).length = k := by rw [← hk]; exact hlen
        rw [if_neg (fun h => hlen1 h.1), if_neg hlen]
  · rw [if_neg h2, if_neg h2]

theorem createKeypointDetector_candidates_eq_decode (st : Settings) (deviceCount : Int) :
    createKeypointDetector_candidates st deviceCount =
      match decode st.Feature2D_1Detector detectorNames with
      | some index =>
        createKeypointDetector_switch st deviceCount (alternativeNames st.Feature2D_1Detector) index
      | none => (none, none) := by
  have h := guard_eq_decode
    (createKeypointDetector_switch st deviceCount (alternativeNames st.Feature2D_1Detector))
    (none, none) st.Feature2D_1Detector detectorNames 9 9 rfl rfl
    (fun n h0 h9 hne => createKeypointDetector_switch_mismatch st deviceCount _ n h0 h9 hne)
  rw [← h]
  rfl

theorem createDescriptorExtractor_switch_mismatch (st : Settings) (deviceCount : Int)
    (strategies : List QString) (n : Int) (h0 : 0 ≤ n) (h6 : n < 6)
    (h : QStringList.at strategies n ≠ QStringList.at descriptorNames n) :
    createDescriptorExtractor_switch st deviceCount strategies n = (none, none) := by
  interval_cases n <;> simp [QStringList.at, descriptorNames] at h <;>
    simp [createDescriptorExtractor_switch, QStringList.at, h]

theorem createDescriptorExtractor_candidates_eq_decode (st : Settings) (deviceCount : Int) :
    createDescriptorExtractor_candidates st deviceCount =
      match decode st.Feature2D_2Descriptor descriptorNames with
      | some index =>
        createDescriptorExtractor_switch st deviceCount
          (alternativeNames st.Feature2D_2Descriptor) index
      | none => (none, none) := by
  have h := guard_eq_decode
    (createDescriptorExtractor_switch st deviceCount (alternativeNames st.Feature2D_2Descriptor))
    (none, none) st.Feature2D_2Descriptor descriptorNames 6 6 rfl rfl
    (fun n h0 h6 hne => createDescriptorExtractor_switch_mismatch st deviceCount _ n h0 h6 hne)
  rw [← h]
  rfl

theorem createFlannIndexParams_switch_mismatch (st : Settings)
    (strategies : List QString) (n : Int) (h0 : 0 ≤ n) (h6 : n < 6)
    (h : QStringList.at strategies n ≠ QStringList.at nearestNeighborNames n) :
    createFlannIndexParams_switch st strategies n = none := by
  interval_cases n <;> simp [QStringList.at, nearestNeighborNames] at h <;>
    simp [createFlannIndexParams_switch, QStringList.at, h]

theorem createFlannIndexParams_params_eq_decode (st : Settings) :
    createFlannIndexParams_params st =
      match decode st.NearestNeighbor_1Strategy nearestNeighborNames with
      | some index =>
        createFlannIndexParams_switch st (alternativeNames st.NearestNeighbor_1Strategy) index
      | none => none := by
  have h := guard_eq_decode
    (createFlannIndexParams_switch st (alternativeNames st.NearestNeighbor_1Strategy))
    none st.NearestNeighbor_1Strategy nearestNeighborNames 6 6 rfl rfl
    (fun n h0 h6 hne => createFlannIndexParams_switch_mismatch st _ n h0 h6 hne)
  rw [← h]
  rfl

theorem ite_induction {α : Type} (P : α → Prop) (c : Prop) [Decidable c] (a b : α)
    (ha : P a) (hb : P b) : P (if c then a else b) := by
  split <;> assumption

theorem createKeypointDetector_switch_not_both (st : Settings) (deviceCount : Int)
    (strategies : List QString) (index : Int) :
    (createKeypointDetector_switch st deviceCount strategies index).1 = none ∨
      (createKeypointDetector_switch st deviceCount strategies index).2 = none := by
  unfold createKeypointDetector_switch
  repeat' first
    | exact Or.inl rfl
    | exact Or.inr rfl
    | refine ite_induction
        (fun x : Option cv.FeatureDetector × Option GPUFeature2D => x.1 = none ∨ x.2 = none)
        _ _ _ ?_ ?_

theorem createDescriptorExtractor_switch_not_both (st : Settings) (deviceCount : Int)
    (strategies : List QString) (index : Int) :
    (createDescriptorExtractor_switch st deviceCount strategies index).1 = none ∨
      (createDescriptorExtractor_switch st deviceCount strategies index).2 = none := by
  unfold createDescriptorExtractor_switch
  repeat' first
    | exact Or.inl rfl
    | exact Or.inr rfl
    | refine ite_induction
        (fun x : Option cv.DescriptorExtractor × Option GPUFeature2D => x.1 = none ∨ x.2 = none)
        _ _ _ ?_ ?_

theorem createKeypointDetector_candidates_not_both (st : Settings) (deviceCount : Int) :
    (createKeypointDetector_candidates st deviceCount).1 = none ∨
      (createKeypointDetector_candidates st deviceCount).2 = none := by
  rw [createKeypointDetector_candidates_eq_decode]
  split
  · exact createKeypointDetector_switch_not_both _ _ _ _
  · exact Or.inl rfl

theorem createDescriptorExtractor_candidates_not_both (st : Settings) (deviceCount : Int) :
    (createDescriptorExtractor_candidates st deviceCount).1 = none ∨
      (createDescriptorExtractor_candidates st deviceCount).2 = none := by
  rw [createDescriptorExtractor_candidates_eq_decode]
  split
  · exact createDescriptorExtractor_switch_not_both _ _ _ _
  · exact Or.inl rfl

/-! ## The loader -/

theorem mapValue_mapInsert_self {β : Type} (m : List (QString × β)) (key : QString) (v : β) :
    mapValue (mapInsert m key v) key = some v := by
  induction m with
  | nil => simp [mapInsert, mapValue]
  | cons e rest ih =>
    obtain ⟨k, w⟩ := e
    by_cases hk : k = key
    · simp [mapInsert, mapValue, hk]
    · simp [mapInsert, mapValue, hk, ih]

theorem mapValue_mapInsert_ne {β : Type} (m : List (QString × β)) (k key : QString) (v : β)
    (h : k ≠ key) : mapValue (mapInsert m k v) key = mapValue m key := by
  induction m with
  | nil => simp [mapInsert, mapValue, h]
  | cons e rest ih =>
    obtain ⟨k', w⟩ := e
    by_cases hk : k' = k
    · subst hk
      simp [mapInsert, mapValue, h]
    · by_cases hk2 : k' = key
      · subst hk2
        simp [mapInsert, mapValue, hk]
      · simp [mapInsert, mapValue, hk, hk2, ih]

theorem mapContains_of_mem {β : Type} (m : List (QString × β)) (key : QString)
    (h : key ∈ m.map Prod.fst) : mapContains m key = true := by
  induction m with
  | nil => simp at h
  | cons e rest ih =>
    obtain ⟨k, w⟩ := e
    by_cases hk : k = key
    · simp [mapContains, mapValue, hk]
    · have hrest : key ∈ rest.map Prod.fst := by
        simp only [List.map_cons, List.mem_cons] at h
        rcases h with h | h
        · exact absurd h.symm hk
        · exact h
      have := ih hrest
      simpa [mapContains, mapValue, hk] using this

theorem setParameter_ok (shapeAgrees : TypeTag → QVariant → Bool) (store store' : ParameterStore)
    (key : QString) (value : QVariant)
    (h : setParameter shapeAgrees store key value = .ok store') :
    store' = { store with parameters_ := mapInsert store.parameters_ key value } := by
  unfold setParameter at h
  split at h
  · split at h
    · exact (Except.ok.inj h).symm
    · split at h
      · exact (Except.ok.inj h).symm
      · exact absurd h (by simp)
    · exact (Except.ok.inj h).symm
  · exact absurd h (by simp)

theorem setParameter_total (shapeAgrees : TypeTag → QVariant → Bool) (store : ParameterStore)
    (key : QString) (value : QVariant) (hall : ∀ tag v, shapeAgrees tag v = true)
    (hkey : mapContains store.defaultParameters_ key = true) :
    setParameter shapeAgrees store key value
      = .ok { store with parameters_ := mapInsert store.parameters_ key value } := by
  unfold setParameter
  rw [if_pos hkey]
  split
  · rfl
  · rw [if_pos (hall _ _)]
  · rfl

theorem loadSettings_key_ok (shapeAgrees : TypeTag → QVariant → Bool) (ini : QString → QVariant)
    (store store' : ParameterStore) (key : QString)
    (h : loadSettings_key shapeAgrees ini store key = .ok store') :
    store'.defaultParameters_ = store.defaultParameters_ ∧
      ∀ k, k ≠ key → mapValue store'.parameters_ k = mapValue store.parameters_ k := by
  have hset : ∀ v, setParameter shapeAgrees store key v = .ok store' →
      store'.defaultParameters_ = store.defaultParameters_ ∧
        ∀ k, k ≠ key → mapValue store'.parameters_ k = mapValue store.parameters_ k := by
    intro v hv
    rw [setParameter_ok _ _ _ _ _ hv]
    exact ⟨rfl, fun k hk => mapValue_mapInsert_ne _ _ _ _ (Ne.symm hk)⟩
  unfold loadSettings_key at h
  simp only [] at h
  split at h
  · split at h
    · split at h
      · split at h
        · split at h
          · exact hset _ h
          · exact absurd h (by simp)
        · exact hset _ h
      · exact absurd h (by simp)
    · exact hset _ h
  · rw [← Except.ok.inj h]
    exact ⟨rfl, fun _ _ => rfl⟩

theorem loadSettings_loop_frame (shapeAgrees : TypeTag → QVariant → Bool)
    (ini : QString → QVariant) (key : QString) (keys : List QString) :
    ∀ store store' : ParameterStore, key ∉ keys →
      loadSettings_loop shapeAgrees ini store keys = .ok store' →
      mapValue store'.parameters_ key = mapValue store.parameters_ key := by
  induction keys with
  | nil =>
    intro store store' _ h
    rw [← Except.ok.inj h]
  | cons k ks ih =>
    intro store store' hmem h
    unfold loadSettings_loop at h
    split at h
    · rename_i store1 hstep
      have hk : key ≠ k := fun e => hmem (by simp [e])
      have hks : key ∉ ks := fun e => hmem (by simp [e])
      rw [ih store1 store' hks h]
      exact (loadSettings_key_ok _ _ _ _ _ hstep).2 key hk
    · exact absurd h (by simp)

theorem loadSettings_key_at (shapeAgrees : TypeTag → QVariant → Bool)
    (ini : QString → QVariant) (store store' : ParameterStore) (key : QString)
    (current : QVariant)
    (hkey : mapContains store.defaultParameters_ key = true)
    (hvalid : (ini key).isValid = true) (hsemi : ';' ∈ (ini key).toString)
    (hcur : mapValue store.parameters_ key = some current)
    (hsize : QString.size (ini key).toString ≠ QString.size current.toString)
    (h : loadSettings_key shapeAgrees ini store key = .ok store') :
    mapValue store'.parameters_ key
      = some (.string (setFirst (toAscii ((ini key).toString.headD (Char.ofNat 0)))
          current.toString)) := by
  have hget : getParameter store key = .ok current := by
    unfold getParameter
    rw [if_pos hkey, hcur]
    rfl
  unfold loadSettings_key at h
  simp only [hget, if_pos hvalid, if_pos hsemi, if_pos hsize] at h
  rw [setParameter_ok _ _ _ _ _ h]
  exact mapValue_mapInsert_self _ _ _

theorem loadSettings_loop_at (shapeAgrees : TypeTag → QVariant → Bool)
    (ini : QString → QVariant) (key : QString) (current : QVariant)
    (hvalid : (ini key).isValid = true) (hsemi : ';' ∈ (ini key).toString)
    (hsize : QString.size (ini key).toString ≠ QString.size current.toString) (keys : List QString) :
    ∀ store store' : ParameterStore, keys.Nodup → key ∈ keys →
      mapContains store.defaultParameters_ key = true →
      mapValue store.parameters_ key = some current →
      loadSettings_loop shapeAgrees ini store keys = .ok store' →
      mapValue store'.parameters_ key
        = some (.string (setFirst (toAscii ((ini key).toString.headD (Char.ofNat 0)))
            current.toString)) := by
  induction keys with
  | nil => intro _ _ _ hmem; simp at hmem
  | cons k ks ih =>
    intro store store' hnodup hmem hkey hcur h
    unfold loadSettings_loop at h
    split at h
    · rename_i store1 hstep
      have hnd := List.nodup_cons.mp hnodup
      by_cases hk : k = key
      · subst hk
        rw [loadSettings_loop_frame _ _ _ _ _ _ hnd.1 h]
        exact loadSettings_key_at _ _ _ _ _ _ hkey hvalid hsemi hcur hsize hstep
      · have hmem2 : key ∈ ks := by
          rcases List.mem_cons.mp hmem with e | e
          · exact absurd e.symm hk
          · exact e
        have hframe := loadSettings_key_ok _ _ _ _ _ hstep
        exact ih store1 store' hnd.2 hmem2 (by rw [hframe.1]; exact hkey)
          (by rw [hframe.2 key (Ne.symm hk)]; exact hcur) h
    · exact absurd h (by simp)

theorem loadSettings_key_total (shapeAgrees : TypeTag → QVariant → Bool)
    (ini : QString → QVariant) (store : ParameterStore) (key : QString)
    (hall : ∀ tag v, shapeAgrees tag v = true)
    (hkey : mapContains store.defaultParameters_ key = true) :
    ∃ store', loadSettings_key shapeAgrees ini store key = .ok store' := by
  have hget : getParameter store key
      = .ok ((mapValue store.parameters_ key).getD .invalid) := by
    unfold getParameter
    rw [if_pos hkey]
  unfold loadSettings_key
  simp only [hget, setParameter_total _ _ _ _ hall hkey]
  split
  · split
    · split
      · exact ⟨_, rfl⟩
      · exact ⟨_, rfl⟩
    · exact ⟨_, rfl⟩
  · exact ⟨_, rfl⟩

theorem loadSettings_loop_total (shapeAgrees : TypeTag → QVariant → Bool)
    (ini : QString → QVariant) (hall : ∀ tag v, shapeAgrees tag v = true)
    (keys : List QString) :
    ∀ store : ParameterStore,
      (∀ k ∈ keys, mapContains store.defaultParameters_ k = true) →
      ∃ store', loadSettings_loop shapeAgrees ini store keys = .ok store' := by
  induction keys with
  | nil => intro store _; exact ⟨store, rfl⟩
  | cons k ks ih =>
    intro store hkeys
    obtain ⟨store1, h1⟩ :=
      loadSettings_key_total shapeAgrees ini store k hall (hkeys k (by simp))
    have hframe := loadSettings_key_ok _ _ _ _ _ h1
    obtain ⟨store2, h2⟩ := ih store1
      (fun k' hk' => by rw [hframe.1]; exact hkeys k' (List.mem_cons_of_mem _ hk'))
    refine ⟨store2, ?_⟩
    unfold loadSettings_loop
    rw [h1]
    exact h2

theorem alternativeNames_setFirst (c d : Char) (names : QString) :
    alternativeNames (c :: ':' :: names) = alternativeNames (d :: ':' :: names) := by
  have key : ∀ e : Char, (split ':' (e :: ':' :: names)).getLastD []
      = (split ':' names).getLastD [] := by
    intro e
    have hne := split_ne_nil ':' names
    by_cases he : e = ':'
    · subst he
      cases hs : split ':' names with
      | nil => exact absurd hs hne
      | cons p ps => simp [split, hs]
    · cases hs : split ':' names with
      | nil => exact absurd hs hne
      | cons p ps => simp [split, hs, he]
  unfold alternativeNames
  rw [key c, key d]

/-! ## The detector name lookup -/

theorem decode_toInt (raw : QString) (expected : List QString) (n : Int)
    (h : decode raw expected = some n) :
    toInt ((split ':' raw).headD []) = some n := by
  unfold decode at h
  simp only [] at h
  split at h
  · split at h
    · rename_i index hint
      split at h
      · split at h
        · split at h
          · rw [hint, Option.some.inj h]
          · exact absurd h (by simp)
        · exact absurd h (by simp)
      · exact absurd h (by simp)
    · exact absurd h (by simp)
  · exact absurd h (by simp)

theorem createKeypointDetector_switch_algorithm (st : Settings) (deviceCount : Int)
    (strategies : List QString) (n : Int) (h0 : 0 ≤ n) (h9 : n < 9)
    (h : QStringList.at strategies n = QStringList.at detectorNames n) :
    constructedDetectors (createKeypointDetector_switch st deviceCount strategies n)
      = [QStringList.at detectorNames n] := by
  interval_cases n <;> simp [QStringList.at, detectorNames] at h <;>
    simp [createKeypointDetector_switch, QStringList.at, h, detectorNames] <;>
    (try split) <;>
    simp [constructedDetectors, cv.FeatureDetector.algorithm, GPUFeature2D.algorithm]

theorem createKeypointDetector_ok_candidates (st : Settings) (deviceCount : Int)
    (handle : KeypointDetector) (h : createKeypointDetector st deviceCount = .ok handle) :
    (handle.featureDetector_, handle.gpuFeature2D_)
      = createKeypointDetector_candidates st deviceCount := by
  have hk := createKeypointDetector_candidates_not_both st deviceCount
  unfold createKeypointDetector at h
  rcases hc : createKeypointDetector_candidates st deviceCount with ⟨a, b⟩
  rw [hc] at h hk
  cases a <;> cases b <;>
    simp [KeypointDetector.ofGPUFeature2D, KeypointDetector.ofFeatureDetector] at h hk
  all_goals subst h; rfl

/-! ## Saving and loading -/

theorem mem_keys_of_mapValue {β : Type} (m : List (QString × β)) (key : QString) (v : β)
    (h : mapValue m key = some v) : key ∈ m.map Prod.fst := by
  induction m with
  | nil => simp [mapValue] at h
  | cons e rest ih =>
    obtain ⟨k, w⟩ := e
    by_cases hk : k = key
    · subst hk
      exact List.mem_cons_self _ _
    · simp only [mapValue, if_neg hk] at h
      exact List.mem_cons_of_mem _ (ih h)

theorem mapValue_of_mem_keys {β : Type} (m : List (QString × β)) (key : QString)
    (h : key ∈ m.map Prod.fst) : ∃ v, mapValue m key = some v := by
  have hc := mapContains_of_mem m key h
  unfold mapContains at hc
  cases hv : mapValue m key with
  | none => rw [hv] at hc; exact absurd hc (by simp)
  | some v => exact ⟨v, rfl⟩

theorem mapInsert_keys {β : Type} (m : List (QString × β)) (key : QString) (v : β)
    (h : key ∈ m.map Prod.fst) : (mapInsert m key v).map Prod.fst = m.map Prod.fst := by
  induction m with
  | nil => simp at h
  | cons e rest ih =>
    obtain ⟨k, w⟩ := e
    by_cases hk : k = key
    · simp [mapInsert, hk]
    · have hrest : key ∈ rest.map Prod.fst := by
        simp only [List.map_cons, List.mem_cons] at h
        rcases h with h | h
        · exact absurd h.symm hk
        · exact h
      simp [mapInsert, hk, ih hrest]

theorem loadSettings_key_cases (shapeAgrees : TypeTag → QVariant → Bool)
    (ini : QString → QVariant) (store store' : ParameterStore) (key : QString)
    (h : loadSettings_key shapeAgrees ini store key = .ok store') :
    store' = store ∨
      ∃ v, store' = { store with parameters_ := mapInsert store.parameters_ key v } := by
  unfold loadSettings_key at h
  simp only [] at h
  split at h
  · split at h
    · split at h
      · split at h
        · split at h
          · exact Or.inr ⟨_, setParameter_ok _ _ _ _ _ h⟩
          · exact absurd h (by simp)
        · exact Or.inr ⟨_, setParameter_ok _ _ _ _ _ h⟩
      · exact absurd h (by simp)
    · exact Or.inr ⟨_, setParameter_ok _ _ _ _ _ h⟩
  · exact Or.inl (Except.ok.inj h).symm

theorem loadSettings_loop_keys (shapeAgrees : TypeTag → QVariant → Bool)
    (ini : QString → QVariant) (keys : List QString) :
    ∀ store store' : ParameterStore,
      (∀ k ∈ keys, k ∈ store.parameters_.map Prod.fst) →
      loadSettings_loop shapeAgrees ini store keys = .ok store' →
      store'.parameters_.map Prod.fst = store.parameters_.map Prod.fst ∧
        store'.defaultParameters_ = store.defaultParameters_ ∧
        store'.parametersType_ = store.parametersType_ := by
  induction keys with
  | nil =>
    intro store store' _ h
    rw [← Except.ok.inj h]
    exact ⟨rfl, rfl, rfl⟩
  | cons k ks ih =>
    intro store store' hkeys h
    unfold loadSettings_loop at h
    split at h
    · rename_i store1 hstep
      have h1 : store1.parameters_.map Prod.fst = store.parameters_.map Prod.fst ∧
          store1.defaultParameters_ = store.defaultParameters_ ∧
          store1.parametersType_ = store.parametersType_ := by
        rcases loadSettings_key_cases _ _ _ _ _ hstep with e | ⟨v, e⟩
        · rw [e]; exact ⟨rfl, rfl, rfl⟩
        · rw [e]; exact ⟨mapInsert_keys _ _ _ (hkeys k (by simp)), rfl, rfl⟩
      have h2 := ih store1 store'
        (fun k' hk' => by rw [h1.1]; exact hkeys k' (List.mem_cons_of_mem _ hk')) h
      exact ⟨h2.1.trans h1.1, h2.2.1.trans h1.2.1, h2.2.2.trans h1.2.2⟩
    · exact absurd h (by simp)

theorem loadSettings_loop_frame_invalid (shapeAgrees : TypeTag → QVariant → Bool)
    (ini : QString → QVariant) (key : QString) (hinv : (ini key).isValid = false)
    (keys : List QString) :
    ∀ store store' : ParameterStore,
      loadSettings_loop shapeAgrees ini store keys = .ok store' →
      mapValue store'.parameters_ key = mapValue store.parameters_ key := by
  induction keys with
  | nil =>
    intro store store' h
    rw [← Except.ok.inj h]
  | cons k ks ih =>
    intro store store' h
    unfold loadSettings_loop at h
    split at h
    · rename_i store1 hstep
      rw [ih store1 store' h]
      by_cases hk : k = key
      · subst hk
        unfold loadSettings_key at hstep
        simp only [hinv] at hstep
        rw [← Except.ok.inj hstep]
      · exact (loadSettings_key_ok _ _ _ _ _ hstep).2 key (Ne.symm hk)
    · exact absurd h (by simp)

theorem loadSettings_key_plain (shapeAgrees : TypeTag → QVariant → Bool)
    (ini : QString → QVariant) (store store' : ParameterStore) (key : QString)
    (current : QVariant)
    (hkey : mapContains store.defaultParameters_ key = true)
    (hvalid : (ini key).isValid = true)
    (hno : ';' ∉ (ini key).toString ∨
      QString.size (ini key).toString = QString.size current.toString)
    (hcur : mapValue store.parameters_ key = some current)
    (h : loadSettings_key shapeAgrees ini store key = .ok store') :
    mapValue store'.parameters_ key = some (ini key) := by
  have hget : getParameter store key = .ok current := by
    unfold getParameter
    rw [if_pos hkey, hcur]
    rfl
  unfold loadSettings_key at h
  simp only [hget, if_pos hvalid] at h
  by_cases hs : ';' ∈ (ini key).toString
  · have hlen : QString.size (ini key).toString = QString.size current.toString := by
      rcases hno with h1 | h1
      · exact absurd hs h1
      · exact h1
    rw [if_pos hs, if_neg (by simpa using hlen)] at h
    rw [setParameter_ok _ _ _ _ _ h]
    exact mapValue_mapInsert_self _ _ _
  · rw [if_neg hs] at h
    rw [setParameter_ok _ _ _ _ _ h]
    exact mapValue_mapInsert_self _ _ _

theorem loadSettings_loop_plain (shapeAgrees : TypeTag → QVariant → Bool)
    (ini : QString → QVariant) (key : QString) (current : QVariant)
    (hvalid : (ini key).isValid = true)
    (hno : ';' ∉ (ini key).toString ∨
      QString.size (ini key).toString = QString.size current.toString)
    (keys : List QString) :
    ∀ store store' : ParameterStore, keys.Nodup → key ∈ keys →
      mapContains store.defaultParameters_ key = true →
      mapValue store.parameters_ key = some current →
      loadSettings_loop shapeAgrees ini store keys = .ok store' →
      mapValue store'.parameters_ key = some (ini key) := by
  induction keys with
  | nil => intro _ _ _ hmem; simp at hmem
  | cons k ks ih =>
    intro store store' hnodup hmem hkey hcur h
    unfold loadSettings_loop at h
    split at h
    · rename_i store1 hstep
      have hnd := List.nodup_cons.mp hnodup
      by_cases hk : k = key
      · subst hk
        rw [loadSettings_loop_frame _ _ _ _ _ _ hnd.1 h]
        exact loadSettings_key_plain _ _ _ _ _ _ hkey hvalid hno hcur hstep
      · have hmem2 : key ∈ ks := by
          rcases List.mem_cons.mp hmem with e | e
          · exact absurd e.symm hk
          · exact e
        have hframe := loadSettings_key_ok _ _ _ _ _ hstep
        exact ih store1 store' hnd.2 hmem2 (by rw [hframe.1]; exact hkey)
          (by rw [hframe.2 key (Ne.symm hk)]; exact hcur) h
    · exact absurd h (by simp)

theorem saveSettings_foldl_not_mem (number_g6 : QVariant → QString)
    (types : List (QString × TypeTag)) (key : QString) (m : ParametersMap) :
    ∀ ini : ParametersMap, key ∉ m.map Prod.fst →
      mapValue (m.foldl (saveSettings_entry number_g6 types) ini) key = mapValue ini key := by
  induction m with
  | nil => intro ini _; rfl
  | cons e rest ih =>
    intro ini hmem
    obtain ⟨k, w⟩ := e
    have hk : k ≠ key := fun e => hmem (by rw [← e]; exact List.mem_cons_self _ _)
    have hrest : key ∉ rest.map Prod.fst := fun e => hmem (List.mem_cons_of_mem _ e)
    rw [List.foldl_cons, ih _ hrest]
    unfold saveSettings_entry
    split <;> exact mapValue_mapInsert_ne _ _ _ _ hk

theorem saveSettings_foldl_mem (number_g6 : QVariant → QString)
    (types : List (QString × TypeTag)) (key : QString) (v : QVariant) (m : ParametersMap) :
    ∀ ini : ParametersMap, (m.map Prod.fst).Nodup → mapValue m key = some v →
      mapValue (m.foldl (saveSettings_entry number_g6 types) ini) key
        = some (if mapValue types key = some .float then .string (number_g6 v) else v) := by
  induction m with
  | nil => intro ini _ h; simp [mapValue] at h
  | cons e rest ih =>
    intro ini hnodup h
    obtain ⟨k, w⟩ := e
    have hnd := List.nodup_cons.mp hnodup
    rw [List.foldl_cons]
    by_cases hk : k = key
    · subst hk
      have hw : w = v := by
        unfold mapValue at h
        rw [if_pos rfl] at h
        exact Option.some.inj h
      subst hw
      rw [saveSettings_foldl_not_mem _ _ _ _ _ hnd.1]
      unfold saveSettings_entry
      split <;> exact mapValue_mapInsert_self _ _ _
    · simp only [mapValue, if_neg hk] at h
      exact ih _ hnd.2 h

theorem saveSettings_value (number_g6 : QVariant → QString) (ini : ParametersMap)
    (store : ParameterStore) (windowGeometry windowState : List Nat) (key : QString)
    (v : QVariant) (hnodup : (store.parameters_.map Prod.fst).Nodup)
    (hv : mapValue store.parameters_ key = some v)
    (hwg : key ≠ "windowGeometry".toList) (hws : key ≠ "windowState".toList) :
    iniValue (saveSettings number_g6 ini store windowGeometry windowState) key
      = if mapValue store.parametersType_ key = some .float then .string (number_g6 v)
        else v := by
  have h := saveSettings_foldl_mem number_g6 store.parametersType_ key v store.parameters_ ini
    hnodup hv
  unfold iniValue saveSettings
  simp only []
  split <;> split <;>
    simp only [mapValue_mapInsert_ne _ _ _ _ (Ne.symm hwg),
      mapValue_mapInsert_ne _ _ _ _ (Ne.symm hws), h, Option.getD_some]

theorem saveThenLoad_values (shapeAgrees : TypeTag → QVariant → Bool)
    (number_g6 : QVariant → QString) (ini : ParametersMap) (store store' : ParameterStore)
    (windowGeometry windowState : List Nat)
    (hnodup : (store.parameters_.map Prod.fst).Nodup)
    (hdnodup : (store.defaultParameters_.map Prod.fst).Nodup)
    (hkeys : ∀ k ∈ store.defaultParameters_.map Prod.fst, k ∈ store.parameters_.map Prod.fst)
    (hwg : "windowGeometry".toList ∉ store.defaultParameters_.map Prod.fst)
    (hws : "windowState".toList ∉ store.defaultParameters_.map Prod.fst)
    (hload : saveThenLoad shapeAgrees number_g6 ini store windowGeometry windowState
      = .ok store') :
    (∀ key, mapValue store.parametersType_ key ≠ some .float →
      mapValue store'.parameters_ key = mapValue store.parameters_ key) ∧
    (∀ key, key ∉ store.defaultParameters_.map Prod.fst →
      mapValue store'.parameters_ key = mapValue store.parameters_ key) ∧
    ((∀ v, ';' ∉ number_g6 v) → ∀ key v, key ∈ store.defaultParameters_.map Prod.fst →
      mapValue store.parametersType_ key = some .float →
      mapValue store.parameters_ key = some v →
      mapValue store'.parameters_ key = some (.string (number_g6 v))) := by
  unfold saveThenLoad loadSettings at hload
  have hout : ∀ key, key ∉ store.defaultParameters_.map Prod.fst →
      mapValue store'.parameters_ key = mapValue store.parameters_ key :=
    fun key hk => loadSettings_loop_frame _ _ _ _ _ _ hk hload
  refine ⟨?_, hout, ?_⟩
  · intro key htype
    by_cases hk : key ∈ store.defaultParameters_.map Prod.fst
    · obtain ⟨v, hv⟩ := mapValue_of_mem_keys _ _ (hkeys key hk)
      have hfile := saveSettings_value number_g6 ini store windowGeometry windowState key v
        hnodup hv (fun e => hwg (e ▸ hk)) (fun e => hws (e ▸ hk))
      rw [if_neg htype] at hfile
      by_cases hvalid : v.isValid = true
      · rw [hv, ← hfile]
        exact loadSettings_loop_plain _ _ key v (by rw [hfile]; exact hvalid)
          (Or.inr (by rw [hfile])) _ store store' hdnodup hk (mapContains_of_mem _ _ hk) hv hload
      · exact loadSettings_loop_frame_invalid _ _ key
          (by rw [hfile]; simpa using hvalid) _ store store' hload
    · exact hout key hk
  · intro hsemi key v hk htype hv
    have hfile := saveSettings_value number_g6 ini store windowGeometry windowState key v
      hnodup hv (fun e => hwg (e ▸ hk)) (fun e => hws (e ▸ hk))
    rw [if_pos htype] at hfile
    rw [← hfile]
    exact loadSettings_loop_plain _ _ key v (by rw [hfile]; rfl)
      (Or.inl (by rw [hfile]; exact hsemi v)) _ store store' hdnodup hk
      (mapContains_of_mem _ _ hk) hv hload

/-! ## Claims -/

/-- C1. Detector strategy decode, accept side: for every index `i` from 0 to 8
and every stored detector value `i:n0;n1;...;n8` (one `:`, nine names
separated by `;`) whose name at position `i` is the expected one,
`Settings::createKeypointDetector` constructs the algorithm named by position
`i`, in its general-purpose or its accelerated form, and nothing else, and
returns the handle around it. -/
theorem createKeypointDetector_selects_alternative (st : Settings) (deviceCount : Int) (i : Nat)
    (names : List QString) (hi : i ≤ 8) (hlen : names.length = 9)
    (hsep : ∀ n ∈ names, ':' ∉ n ∧ ';' ∉ n)
    (hname : names.getD i [] = detectorNames.getD i [])
    (hst : st.Feature2D_1Detector = Nat.digitChar i :: ':' :: join ';' names) :
    constructedDetectors (createKeypointDetector_candidates st deviceCount)
        = [detectorNames.getD i []] ∧
      ∃ handle, createKeypointDetector st deviceCount = .ok handle ∧
        (handle.featureDetector_, handle.gpuFeature2D_)
          = createKeypointDetector_candidates st deviceCount := by
  have hne : names ≠ [] := by intro h; simp [h] at hlen
  have hcolon : ':' ∉ join ';' names :=
    not_mem_join ':' ';' names (by decide) (fun n hn => (hsep n hn).1)
  have hsplit : split ':' st.Feature2D_1Detector = [[Nat.digitChar i], join ';' names] := by
    rw [hst]; exact split_code _ _ (digitChar_ne_colon i (by omega)) hcolon
  have hstrat : split ';' (join ';' names) = names :=
    split_join ';' names hne (fun n hn => (hsep n hn).2)
  have hint := toInt_digitChar i (by omega)
  have hcand : ∀ x, createKeypointDetector_candidates st deviceCount = x →
      constructedDetectors x = [detectorNames.getD i []] ∧
      ∃ handle, createKeypointDetector st deviceCount = .ok handle ∧
        (handle.featureDetector_, handle.gpuFeature2D_) = x := by
    intro x hx
    unfold createKeypointDetector
    rw [hx]
    unfold createKeypointDetector_candidates at hx
    simp only [hsplit, hstrat, hint, hlen, List.length_cons, List.length_nil, List.headD_cons,
      List.getLastD_cons, List.getLastD_nil] at hx
    interval_cases i <;>
      simp [QStringList.at, detectorNames, createKeypointDetector_switch] at hx hname <;>
      simp [hname] at hx <;>
      (try split at hx) <;>
      subst hx <;>
      simp [constructedDetectors, cv.FeatureDetector.algorithm, GPUFeature2D.algorithm,
        detectorNames, KeypointDetector.ofGPUFeature2D, KeypointDetector.ofFeatureDetector]
  exact hcand _ rfl

/-- Witness of C1: the stored value `4:Dense;...;BRISK` selects ORB. -/
theorem createKeypointDetector_selects_alternative_witness :
    constructedDetectors (createKeypointDetector_candidates orbAcceleratedSettings 2)
        = ["ORB".toList] ∧
      ∃ handle, createKeypointDetector orbAcceleratedSettings 2 = .ok handle ∧
        (handle.featureDetector_, handle.gpuFeature2D_)
          = createKeypointDetector_candidates orbAcceleratedSettings 2 :=
  createKeypointDetector_selects_alternative orbAcceleratedSettings 2 4 detectorNames
    (by decide) (by decide) (by decide) (by decide) (by rfl)

/-- C2. Detector strategy decode, reject side: a stored detector value that does
not split on `:` into two parts, or whose first part is not an integer, or
whose second part does not split on `;` into nine names, or whose index is
outside `[0, 9)`, or whose name at the index differs from the expected one,
leaves both candidates of `Settings::createKeypointDetector` unset, and the
assertion that one of them is set fails: no handle is returned. -/
theorem createKeypointDetector_rejects_malformed (st : Settings) (deviceCount : Int)
    (h : (split ':' st.Feature2D_1Detector).length ≠ 2
      ∨ toInt ((split ':' st.Feature2D_1Detector).headD []) = none
      ∨ (split ';' ((split ':' st.Feature2D_1Detector).getLastD [])).length ≠ 9
      ∨ (∃ index, toInt ((split ':' st.Feature2D_1Detector).headD []) = some index
          ∧ (index < 0 ∨ 9 ≤ index))
      ∨ (∃ index, toInt ((split ':' st.Feature2D_1Detector).headD []) = some index
          ∧ QStringList.at (split ';' ((split ':' st.Feature2D_1Detector).getLastD [])) index
            ≠ QStringList.at detectorNames index)) :
    createKeypointDetector_candidates st deviceCount = (none, none) ∧
      createKeypointDetector st deviceCount
        = .error (.assertion "detectorGPU!=0 || detector!=0") := by
  have hd : decode st.Feature2D_1Detector detectorNames = none :=
    decode_eq_none_of_malformed _ _ h
  have hc : createKeypointDetector_candidates st deviceCount = (none, none) := by
    rw [createKeypointDetector_candidates_eq_decode, hd]
  refine ⟨hc, ?_⟩
  unfold createKeypointDetector
  rw [hc]
  rfl

/-- Witness of C2: the index 9 is out of range. -/
theorem createKeypointDetector_rejects_malformed_witness :
    createKeypointDetector_candidates outOfRangeDetectorSettings 1 = (none, none) ∧
      createKeypointDetector outOfRangeDetectorSettings 1
        = .error (.assertion "detectorGPU!=0 || detector!=0") :=
  createKeypointDetector_rejects_malformed outOfRangeDetectorSettings 1
    (Or.inr (Or.inr (Or.inr (Or.inl ⟨9, by rfl, Or.inr (by decide)⟩))))

/-- C3 (the code departs from it). With the stored homography code
`0:LMEDS;RANSAC`, whose decoded index is 0, `Settings::getHomographyMethod`
returns `cv::RANSAC`, which is not `cv::LMEDS`: its `switch` is on `method`,
not on the decoded index. -/
theorem getHomographyMethod_index_zero_is_RANSAC :
    decode lmedsSettings.Homography_method ["LMEDS".toList, "RANSAC".toList] = some 0 ∧
      getHomographyMethod lmedsSettings = cv.RANSAC ∧ cv.RANSAC ≠ cv.LMEDS := by
  decide

/-- C5. Exactly one back-end: `Settings::createKeypointDetector` and
`Settings::createDescriptorExtractor` never set both the general-purpose and
the accelerated candidate, and every handle they return has exactly one of
its two backing pointers set. -/
theorem exactly_one_backend (st : Settings) (deviceCount : Int) :
    ¬ ((createKeypointDetector_candidates st deviceCount).1.isSome = true ∧
        (createKeypointDetector_candidates st deviceCount).2.isSome = true) ∧
    ¬ ((createDescriptorExtractor_candidates st deviceCount).1.isSome = true ∧
        (createDescriptorExtractor_candidates st deviceCount).2.isSome = true) ∧
    (∀ handle, createKeypointDetector st deviceCount = .ok handle →
      (handle.featureDetector_.isSome = true ∧ handle.gpuFeature2D_ = none) ∨
      (handle.featureDetector_ = none ∧ handle.gpuFeature2D_.isSome = true)) ∧
    (∀ handle, createDescriptorExtractor st deviceCount = .ok handle →
      (handle.descriptorExtractor_.isSome = true ∧ handle.gpuFeature2D_ = none) ∨
      (handle.descriptorExtractor_ = none ∧ handle.gpuFeature2D_.isSome = true)) := by
  have hk := createKeypointDetector_candidates_not_both st deviceCount
  have hd := createDescriptorExtractor_candidates_not_both st deviceCount
  refine ⟨?_, ?_, ?_, ?_⟩
  · rintro ⟨h1, h2⟩
    rcases hk with h | h <;> simp [h] at h1 h2
  · rintro ⟨h1, h2⟩
    rcases hd with h | h <;> simp [h] at h1 h2
  · intro handle hh
    unfold createKeypointDetector at hh
    rcases hc : createKeypointDetector_candidates st deviceCount with ⟨a, b⟩
    rw [hc] at hh hk
    cases a <;> cases b <;>
      simp [KeypointDetector.ofGPUFeature2D, KeypointDetector.ofFeatureDetector] at hh hk
    all_goals subst hh; simp
  · intro handle hh
    unfold createDescriptorExtractor at hh
    rcases hc : createDescriptorExtractor_candidates st deviceCount with ⟨a, b⟩
    rw [hc] at hh hd
    cases a <;> cases b <;>
      simp [DescriptorExtractor.ofGPUFeature2D, DescriptorExtractor.ofDescriptorExtractor]
        at hh hd
    all_goals subst hh; simp

/-- Witness of C5: the handle returned for the example store. -/
theorem exactly_one_backend_witness :
    ∃ handle, createKeypointDetector exampleSettings 0 = .ok handle ∧
      ((handle.featureDetector_.isSome = true ∧ handle.gpuFeature2D_ = none) ∨
        (handle.featureDetector_ = none ∧ handle.gpuFeature2D_.isSome = true)) :=
  ⟨_, rfl, (exactly_one_backend exampleSettings 0).2.2.1 _ rfl⟩

/-- C6. Index factory fallback: when the stored nearest-neighbor code does not
decode (not two `:` parts, no integer index, not six alternatives, index
outside `[0, 6)`, or a name at the index that is not the expected one),
`Settings::createFlannIndexParams` returns a non-null KDTree parameter object
built by the constructor call without arguments, whatever the stored KDTree
parameter is; and for every store the returned pointer is non-null. -/
theorem createFlannIndexParams_fallback (st : Settings)
    (h : (split ':' st.NearestNeighbor_1Strategy).length ≠ 2
      ∨ toInt ((split ':' st.NearestNeighbor_1Strategy).headD []) = none
      ∨ (split ';' ((split ':' st.NearestNeighbor_1Strategy).getLastD [])).length ≠ 6
      ∨ (∃ index, toInt ((split ':' st.NearestNeighbor_1Strategy).headD []) = some index
          ∧ (index < 0 ∨ 6 ≤ index))
      ∨ (∃ index, toInt ((split ':' st.NearestNeighbor_1Strategy).headD []) = some index
          ∧ QStringList.at (split ';' ((split ':' st.NearestNeighbor_1Strategy).getLastD []))
              index
            ≠ QStringList.at nearestNeighborNames index)) :
    createFlannIndexParams st = some (.KDTreeIndexParams []) ∧
      ∀ st' : Settings, ∃ params, createFlannIndexParams st' = some params := by
  have hd : decode st.NearestNeighbor_1Strategy nearestNeighborNames = none :=
    decode_eq_none_of_malformed _ _ h
  constructor
  · unfold createFlannIndexParams
    rw [createFlannIndexParams_params_eq_decode, hd]
  · intro st'
    unfold createFlannIndexParams
    split
    · exact ⟨_, rfl⟩
    · exact ⟨_, rfl⟩

/-- Witness of C6: a nearest-neighbor code without `:`. -/
theorem createFlannIndexParams_fallback_witness :
    createFlannIndexParams undecodableStrategySettings = some (.KDTreeIndexParams []) ∧
      ∀ st' : Settings, ∃ params, createFlannIndexParams st' = some params :=
  createFlannIndexParams_fallback undecodableStrategySettings (Or.inl (by decide))

/-- Counterexample to C7 as stated: the persisted value `1:A;B;C` has three
alternatives, the in-memory value `0:ABC;D` has two, and both have the size
seven; `Settings::loadSettings` stores the persisted value as it is, with
alternative names that are not the in-memory ones. -/
theorem loadSettings_same_length_keeps_persisted_names :
    (alternativeNames "1:A;B;C".toList).length ≠ (alternativeNames "0:ABC;D".toList).length ∧
      QString.size "1:A;B;C".toList = QString.size "0:ABC;D".toList ∧
      mapValue catalogStore.parameters_ "General/choice".toList
        = some (.string "0:ABC;D".toList) ∧
      sameLengthIni "General/choice".toList = .string "1:A;B;C".toList ∧
      (loadSettings (fun _ _ => true) sameLengthIni catalogStore).toOption.bind
          (fun store => mapValue store.parameters_ "General/choice".toList)
        = some (.string "1:A;B;C".toList) ∧
      alternativeNames "1:A;B;C".toList ≠ alternativeNames "0:ABC;D".toList := by
  decide

/-- C7, amended. For every key of the default catalog (a map, so without
repeated keys) and every persisted value that contains `;` and whose
`size()`, the number of its 16-bit units, differs from that of the in-memory
value `d:names` of the key (`d` one 16-bit unit), a load that completes
stores the in-memory value with its first character replaced by the first
character `c` of the persisted value, for `c` up to `0xff`: the alternative
names are the in-memory ones and the leading index character is the
persisted one. The load completes when no value is refused for its shape. -/
theorem loadSettings_list_update (shapeAgrees : TypeTag → QVariant → Bool)
    (ini : QString → QVariant) (store : ParameterStore) (key : QString) (current : QVariant)
    (c d : Char) (rest names : QString)
    (hnodup : (store.defaultParameters_.map Prod.fst).Nodup)
    (hkey : key ∈ store.defaultParameters_.map Prod.fst)
    (hvalid : (ini key).isValid = true)
    (hstr : (ini key).toString = c :: rest)
    (hsemi : ';' ∈ c :: rest)
    (hcur : mapValue store.parameters_ key = some current)
    (hform : current.toString = d :: ':' :: names)
    (hsize : QString.size (c :: rest) ≠ QString.size (d :: ':' :: names))
    (hascii : c.toNat ≤ 255) (hunit : d.toNat ≤ 0xFFFF) :
    (∀ store', loadSettings shapeAgrees ini store = .ok store' →
      mapValue store'.parameters_ key = some (.string (c :: ':' :: names)) ∧
        alternativeNames (c :: ':' :: names) = alternativeNames current.toString) ∧
    ((∀ tag v, shapeAgrees tag v = true) →
      ∃ store', loadSettings shapeAgrees ini store = .ok store') := by
  have _ := hunit
  constructor
  · intro store' hload
    have h := loadSettings_loop_at shapeAgrees ini key current hvalid
      (by rw [hstr]; exact hsemi) (by rw [hstr, hform]; exact hsize)
      (store.defaultParameters_.map Prod.fst) store store' hnodup hkey
      (mapContains_of_mem _ _ hkey) hcur hload
    have hc : toAscii c = c := by
      unfold toAscii
      rw [if_neg (by omega)]
    rw [hstr, hform] at h
    simp only [List.headD_cons, setFirst, hc] at h
    exact ⟨h, by rw [hform]; exact alternativeNames_setFirst c d names⟩
  · intro hall
    exact loadSettings_loop_total shapeAgrees ini hall _ store
      (fun k hk => mapContains_of_mem _ _ hk)

/-- Witness of C7: the persisted value `1:A;B;CD` is longer than the
in-memory value `0:ABC;D`; the value stored is `1:ABC;D`. -/
theorem loadSettings_list_update_witness :
    ∃ store', loadSettings (fun _ _ => true) longerIni catalogStore = .ok store' ∧
      mapValue store'.parameters_ "General/choice".toList = some (.string "1:ABC;D".toList) := by
  have h := loadSettings_list_update (fun _ _ => true) longerIni catalogStore
    "General/choice".toList (.string "0:ABC;D".toList) '1' '0' ":A;B;CD".toList "ABC;D".toList
    (by decide) (by decide) (by decide) (by decide) (by decide) (by decide) (by decide)
    (by decide) (by decide) (by decide)
  obtain ⟨store', hload⟩ := h.2 (fun _ _ => rfl)
  exact ⟨store', hload, (h.1 store' hload).1⟩

/-- Counterexample to C8 as stated: two stored distance codes with index 1 and
nine alternatives that differ in the name at position 1, so that at least one
of them has a name other than the expected one there; for both
`Settings::getFlannDistanceType` returns 2, which is not `FLANN_DIST_L2`. -/
theorem getFlannDistanceType_ignores_names :
    QStringList.at (alternativeNames distanceBSettings.NearestNeighbor_2Distance_type) 1
        ≠ QStringList.at (alternativeNames distanceXSettings.NearestNeighbor_2Distance_type) 1 ∧
      getFlannDistanceType distanceBSettings = 2 ∧
      getFlannDistanceType distanceXSettings = 2 ∧
      (2 : Int) ≠ FLANN_DIST_L2 := by
  decide

/-- C8, amended. `Settings::getFlannDistanceType` does not look at the names:
for every stored distance code with two `:` parts, an integer index from 0 to
8 and nine alternatives it returns the metric numbered `index + 1`; for a
code without two `:` parts, without an integer index, without nine
alternatives or with an index outside `[0, 9)` it returns `FLANN_DIST_L2`. -/
theorem getFlannDistanceType_by_index (st : Settings) :
    (∀ index : Int, (split ':' st.NearestNeighbor_2Distance_type).length = 2 →
      toInt ((split ':' st.NearestNeighbor_2Distance_type).headD []) = some index →
      (split ';' ((split ':' st.NearestNeighbor_2Distance_type).getLastD [])).length = 9 →
      0 ≤ index → index ≤ 8 →
      getFlannDistanceType st = index + 1) ∧
    ((split ':' st.NearestNeighbor_2Distance_type).length ≠ 2
      ∨ toInt ((split ':' st.NearestNeighbor_2Distance_type).headD []) = none
      ∨ (split ';' ((split ':' st.NearestNeighbor_2Distance_type).getLastD [])).length ≠ 9
      ∨ (∃ index, toInt ((split ':' st.NearestNeighbor_2Distance_type).headD []) = some index
          ∧ (index < 0 ∨ 9 ≤ index)) →
      getFlannDistanceType st = FLANN_DIST_L2) := by
  constructor
  · intro index h2 hint hlen h0 h8
    unfold getFlannDistanceType
    simp only [if_pos h2, hint, hlen]
    rw [if_pos ⟨trivial, h0, h8⟩]
  · intro h
    unfold getFlannDistanceType
    rcases h with h | h | h | ⟨n, hn, h⟩
    · simp only [if_neg h]
    · simp only [h]
      split <;> rfl
    · simp only []
      split
      · split
        · rw [if_neg (fun hc => h hc.1)]
        · rfl
      · rfl
    · simp only [hn]
      split
      · rw [if_neg (by omega)]
      · rfl

/-- Witness of C8: index 1 and nine alternatives give the metric 2. -/
theorem getFlannDistanceType_by_index_witness :
    getFlannDistanceType distanceBSettings = 1 + 1 :=
  (getFlannDistanceType_by_index distanceBSettings).1 1 (by decide) (by rfl) (by decide)
    (by decide) (by decide)

/-- Counterexample to C9 as stated: with KMeans selected and the nested code
`1:GONZALES`, which has one alternative and so the wrong count for the three
policies, the policy passed is 1 and not `FLANN_CENTERS_RANDOM`; with
Composite selected and the nested code `7:RANDOM;GONZALES;KMEANSPP`, whose
index is out of range, the value passed is 7, which is none of the
enumerated policies. -/
theorem centers_init_not_validated :
    (alternativeNames kmeansOneAlternativeSettings.NearestNeighbor_KMeans_centers_init).length
        = 1 ∧
      createFlannIndexParams kmeansOneAlternativeSettings
        = some (.KMeansIndexParams (.int 32) (.int 11) 1 (.real "0.2".toList)) ∧
      (1 : Int) ≠ FLANN_CENTERS_RANDOM ∧
      createFlannIndexParams compositeIndexSevenSettings
        = some (.CompositeIndexParams (.int 4) (.int 32) (.int 11) 7 (.real "0.2".toList)) ∧
      (7 : Int) ∉ [FLANN_CENTERS_RANDOM, FLANN_CENTERS_GONZALES, FLANN_CENTERS_KMEANSPP] := by
  decide

/-- C9, amended. When the outer nearest-neighbor code selects KMeans or
Composite, `Settings::createFlannIndexParams` returns a KMeans or Composite
index whatever the nested `centers_init` code is. The policy passed is
`FLANN_CENTERS_RANDOM` when the nested code does not split on `:` into two
parts or its first part is not an integer; when the first part is an integer
from 0 to 2 the policy passed is the enumerated policy of that number,
whatever the alternative count and the names of the nested code are. -/
theorem createFlannIndexParams_centers_init_fallback (st : Settings) :
    (decode st.NearestNeighbor_1Strategy nearestNeighborNames = some 2 →
      createFlannIndexParams st = some (.KMeansIndexParams
        st.NearestNeighbor_KMeans_branching
        st.NearestNeighbor_KMeans_iterations
        (createFlannIndexParams_centers_init st.NearestNeighbor_KMeans_centers_init)
        st.NearestNeighbor_KMeans_cb_index)) ∧
    (decode st.NearestNeighbor_1Strategy nearestNeighborNames = some 3 →
      createFlannIndexParams st = some (.CompositeIndexParams
        st.NearestNeighbor_Composite_trees
        st.NearestNeighbor_Composite_branching
        st.NearestNeighbor_Composite_iterations
        (createFlannIndexParams_centers_init st.NearestNeighbor_Composite_centers_init)
        st.NearestNeighbor_Composite_cb_index)) ∧
    (∀ nested : QString,
      (split ':' nested).length ≠ 2 ∨ toInt ((split ':' nested).headD []) = none →
      createFlannIndexParams_centers_init nested = FLANN_CENTERS_RANDOM) ∧
    (∀ (nested : QString) (index : Int),
      (split ':' nested).length = 2 → toInt ((split ':' nested).headD []) = some index →
      0 ≤ index → index < 3 →
      createFlannIndexParams_centers_init nested = index ∧
        index ∈ [FLANN_CENTERS_RANDOM, FLANN_CENTERS_GONZALES, FLANN_CENTERS_KMEANSPP]) := by
  refine ⟨?_, ?_, ?_, ?_⟩
  · intro hd
    have hn := (decode_eq_some _ _ _ hd).2.2.2
    simp [QStringList.at, nearestNeighborNames] at hn
    unfold createFlannIndexParams
    rw [createFlannIndexParams_params_eq_decode, hd]
    simp [createFlannIndexParams_switch, QStringList.at, hn]
  · intro hd
    have hn := (decode_eq_some _ _ _ hd).2.2.2
    simp [QStringList.at, nearestNeighborNames] at hn
    unfold createFlannIndexParams
    rw [createFlannIndexParams_params_eq_decode, hd]
    simp [createFlannIndexParams_switch, QStringList.at, hn]
  · intro nested h
    unfold createFlannIndexParams_centers_init
    rcases h with h | h
    · simp only [if_neg h]
    · simp only [h]
      split <;> rfl
  · intro nested index h2 hint h0 h3
    constructor
    · unfold createFlannIndexParams_centers_init
      simp only [if_pos h2, hint]
    · interval_cases index <;> decide

/-- Witness of C9: KMeans selected and a nested code without `:`. -/
theorem createFlannIndexParams_centers_init_fallback_witness :
    createFlannIndexParams kmeansNoColonSettings
        = some (.KMeansIndexParams (.int 32) (.int 11) FLANN_CENTERS_RANDOM
            (.real "0.2".toList)) := by
  have h := createFlannIndexParams_centers_init_fallback kmeansNoColonSettings
  rw [h.1 (by decide), h.2.2.1 _ (Or.inl (by decide))]
  rfl

/-- C10 (the code departs from it). For a vision library whose accelerated
routines throw a `cv::Exception` on an image, `KeypointDetector::detect` on a
handle backed by `GPUFAST` lets the exception reach the caller, while on a
handle backed by `GPUSURF` or `GPUORB` it returns normally with the keypoints
unchanged, and `DescriptorExtractor::compute` on those two returns normally
with an empty descriptor matrix. -/
theorem GPUFAST_detect_propagates (lib : VisionLibrary) (args : List QVariant)
    (image : cv.Mat) (keypoints : List cv.KeyPoint) (descriptors : cv.Mat) (msg : String)
    (hdetect : ∀ self, lib.gpuDetect self image keypoints = .error (.cvException msg))
    (hdescribe : ∀ self, lib.gpuDescribe self image keypoints = .error (.cvException msg)) :
    KeypointDetector.detect lib
        { featureDetector_ := none, gpuFeature2D_ := some (.GPUFAST args) } image keypoints
      = .error (.cvException msg) ∧
    KeypointDetector.detect lib
        { featureDetector_ := none, gpuFeature2D_ := some (.GPUSURF args) } image keypoints
      = .ok keypoints ∧
    KeypointDetector.detect lib
        { featureDetector_ := none, gpuFeature2D_ := some (.GPUORB args) } image keypoints
      = .ok keypoints ∧
    DescriptorExtractor.compute lib
        { descriptorExtractor_ := none, gpuFeature2D_ := some (.GPUSURF args) }
        image keypoints descriptors
      = .ok (keypoints, cv.Mat.nil) ∧
    DescriptorExtractor.compute lib
        { descriptorExtractor_ := none, gpuFeature2D_ := some (.GPUORB args) }
        image keypoints descriptors
      = .ok (keypoints, cv.Mat.nil) := by
  simp [KeypointDetector.detect, DescriptorExtractor.compute, GPUFeature2D.detectKeypoints,
    GPUFeature2D.computeDescriptors, tryCatchCvException, hdetect, hdescribe,
    downloadDescriptors, cv.Mat.empty, cv.Mat.nil]

/-- Witness of C10: the library whose accelerated routines always throw, with
the accelerated FAST of the example store. -/
theorem GPUFAST_detect_propagates_witness :
    KeypointDetector.detect throwingLibrary
        { featureDetector_ := none, gpuFeature2D_ := some (.GPUFAST [.int 10, .bool true]) }
        { rows := 2, cols := 2, type := 0 } []
      = .error (.cvException "matrix size") :=
  (GPUFAST_detect_propagates throwingLibrary [.int 10, .bool true]
    { rows := 2, cols := 2, type := 0 } [] cv.Mat.nil "matrix size"
    (fun _ => rfl) (fun _ => rfl)).1

/-- C11. Save/load round trip: for a store whose two maps have no repeated key,
that has every key of the default catalog, and whose catalog does not use
the two window keys, `Settings::saveSettings` to a file followed by a
`Settings::loadSettings` of that file that completes leaves the value of
every key whose type is not `float` as it was; the value of a `float` key of
the catalog becomes the text of `QString::number(value.toFloat(), 'g', 6)`
(a text without `;`); and when formatting such a text again gives the same
text, a second round trip changes no value. The load completes when no value
is refused for its shape. -/
theorem save_load_round_trip (shapeAgrees : TypeTag → QVariant → Bool)
    (number_g6 : QVariant → QString) (ini : ParametersMap) (store : ParameterStore)
    (windowGeometry windowState : List Nat)
    (hnodup : (store.parameters_.map Prod.fst).Nodup)
    (hdnodup : (store.defaultParameters_.map Prod.fst).Nodup)
    (hkeys : ∀ k ∈ store.defaultParameters_.map Prod.fst, k ∈ store.parameters_.map Prod.fst)
    (hwg : "windowGeometry".toList ∉ store.defaultParameters_.map Prod.fst)
    (hws : "windowState".toList ∉ store.defaultParameters_.map Prod.fst)
    (hsemi : ∀ v, ';' ∉ number_g6 v) :
    (∀ store', saveThenLoad shapeAgrees number_g6 ini store windowGeometry windowState
        = .ok store' →
      (∀ key, mapValue store.parametersType_ key ≠ some .float →
        mapValue store'.parameters_ key = mapValue store.parameters_ key) ∧
      (∀ key v, key ∈ store.defaultParameters_.map Prod.fst →
        mapValue store.parametersType_ key = some .float →
        mapValue store.parameters_ key = some v →
        mapValue store'.parameters_ key = some (.string (number_g6 v))) ∧
      ((∀ v, number_g6 (.string (number_g6 v)) = number_g6 v) →
        ∀ (ini2 : ParametersMap) (windowGeometry2 windowState2 : List Nat) store'',
          saveThenLoad shapeAgrees number_g6 ini2 store' windowGeometry2 windowState2
            = .ok store'' →
          ∀ key, mapValue store''.parameters_ key = mapValue store'.parameters_ key)) ∧
    ((∀ tag v, shapeAgrees tag v = true) →
      ∃ store', saveThenLoad shapeAgrees number_g6 ini store windowGeometry windowState
        = .ok store') := by
  constructor
  · intro store' hload
    have h1 := saveThenLoad_values shapeAgrees number_g6 ini store store' windowGeometry
      windowState hnodup hdnodup hkeys hwg hws hload
    refine ⟨h1.1, h1.2.2 hsemi, ?_⟩
    intro hidem ini2 windowGeometry2 windowState2 store'' hload2 key
    have hk := loadSettings_loop_keys shapeAgrees _ _ store store' hkeys hload
    have h2 := saveThenLoad_values shapeAgrees number_g6 ini2 store' store'' windowGeometry2
      windowState2 (by rw [hk.1]; exact hnodup) (by rw [hk.2.1]; exact hdnodup)
      (by rw [hk.1, hk.2.1]; exact hkeys) (by rw [hk.2.1]; exact hwg)
      (by rw [hk.2.1]; exact hws) hload2
    by_cases htype : mapValue store.parametersType_ key = some .float
    · by_cases hmem : key ∈ store.defaultParameters_.map Prod.fst
      · obtain ⟨v, hv⟩ := mapValue_of_mem_keys _ _ (hkeys key hmem)
        have hv' := h1.2.2 hsemi key v hmem htype hv
        rw [h2.2.2 hsemi key _ (by rw [hk.2.1]; exact hmem) (by rw [hk.2.2]; exact htype) hv',
          hv', hidem]
      · exact h2.2.1 key (by rw [hk.2.1]; exact hmem)
    · exact h2.1 key (by rw [hk.2.2]; exact htype)
  · intro hall
    exact loadSettings_loop_total shapeAgrees _ hall _ store
      (fun k hk => mapContains_of_mem _ _ hk)

/-- Witness of C11: the example store, saved to an empty file with a window
state and loaded back; the integer keeps its value and the float becomes its
text. -/
theorem save_load_round_trip_witness :
    ∃ store', saveThenLoad (fun _ _ => true) exampleNumber [] roundTripStore [] [1]
        = .ok store' ∧
      mapValue store'.parameters_ "Feature2D/ORB_nLevels".toList = some (.int 8) ∧
      mapValue store'.parameters_ "Feature2D/ORB_scaleFactor".toList
        = some (.string "1.2".toList) := by
  have hsemi : ∀ v, ';' ∉ exampleNumber v := by
    intro v hmem
    have hp := (List.mem_filter.mp hmem).2
    exact absurd hp (by decide)
  have h := save_load_round_trip (fun _ _ => true) exampleNumber [] roundTripStore [] [1]
    (by decide) (by decide) (by decide) (by decide) (by decide) hsemi
  obtain ⟨store', hload⟩ := h.2 (fun _ _ => rfl)
  have hs := h.1 store' hload
  exact ⟨store', hload,
    (hs.1 "Feature2D/ORB_nLevels".toList (by decide)).trans (by decide),
    (hs.2.1 "Feature2D/ORB_scaleFactor".toList (.real "1.2".toList) (by decide) (by decide)
      (by decide)).trans (by decide)⟩

/-- C12. Load frame: after a `Settings::loadSettings` that completes, every
key without a valid persisted value in the file, and every key outside the
default catalog, has exactly the value it had before; and when every key of
the default catalog is a key of the store (the store starts as a copy of the
defaults), the keys of the store are the same as before. The load completes
when no value is refused for its shape. -/
theorem loadSettings_frame (shapeAgrees : TypeTag → QVariant → Bool)
    (ini : QString → QVariant) (store : ParameterStore) :
    (∀ store', loadSettings shapeAgrees ini store = .ok store' →
      (∀ key, (ini key).isValid = false →
        mapValue store'.parameters_ key = mapValue store.parameters_ key) ∧
      (∀ key, key ∉ store.defaultParameters_.map Prod.fst →
        mapValue store'.parameters_ key = mapValue store.parameters_ key) ∧
      ((∀ k ∈ store.defaultParameters_.map Prod.fst, k ∈ store.parameters_.map Prod.fst) →
        store'.parameters_.map Prod.fst = store.parameters_.map Prod.fst)) ∧
    ((∀ tag v, shapeAgrees tag v = true) →
      ∃ store', loadSettings shapeAgrees ini store = .ok store') := by
  constructor
  · intro store' hload
    unfold loadSettings at hload
    refine ⟨?_, ?_, ?_⟩
    · intro key hinv
      exact loadSettings_loop_frame_invalid _ _ key hinv _ store store' hload
    · intro key hk
      exact loadSettings_loop_frame _ _ _ _ _ _ hk hload
    · intro hkeys
      exact (loadSettings_loop_keys _ _ _ store store' hkeys hload).1
  · intro hall
    exact loadSettings_loop_total shapeAgrees ini hall _ store
      (fun k hk => mapContains_of_mem _ _ hk)

/-- Witness of C12: a file that only holds `Feature2D/ORB_nLevels`; the scale
factor keeps its value and the keys stay the same. -/
theorem loadSettings_frame_witness :
    ∃ store', loadSettings (fun _ _ => true) levelsIni roundTripStore = .ok store' ∧
      mapValue store'.parameters_ "Feature2D/ORB_scaleFactor".toList
        = some (.real "1.2".toList) ∧
      store'.parameters_.map Prod.fst = roundTripStore.parameters_.map Prod.fst := by
  have h := loadSettings_frame (fun _ _ => true) levelsIni roundTripStore
  obtain ⟨store', hload⟩ := h.2 (fun _ _ => rfl)
  have hs := h.1 store' hload
  exact ⟨store', hload, (hs.1 "Feature2D/ORB_scaleFactor".toList (by decide)).trans (by decide),
    hs.2.2 (by decide)⟩

/-- C13. `Settings::getHomographyMethod` never reads the decoded index: for
every stored homography code, well-formed with index 0 or 1 or malformed, it
returns `cv::RANSAC`. -/
theorem getHomographyMethod_constant (st : Settings) :
    getHomographyMethod st = cv.RANSAC := by
  unfold getHomographyMethod
  simp only []
  split
  · split
    · split
      · rw [if_neg (by decide)]
      · rfl
    · rfl
  · rfl

/-- C14. Consistency of the name lookup with the factory: whenever
`Settings::createKeypointDetector` returns a handle, the stored detector code
decodes to an index, `Settings::currentDetectorType` reads its list within
bounds and returns the expected name at that index, and that name is the
algorithm behind the handle. The lookup validates nothing itself: on the
code with index 9, which the factory rejects, it reads out of bounds. -/
theorem currentDetectorType_consistent (st : Settings) (deviceCount : Int)
    (handle : KeypointDetector) (h : createKeypointDetector st deviceCount = .ok handle) :
    (∃ index, decode st.Feature2D_1Detector detectorNames = some index ∧
      currentDetectorType st = .ok (QStringList.at detectorNames index) ∧
      constructedDetectors (handle.featureDetector_, handle.gpuFeature2D_)
        = [QStringList.at detectorNames index]) ∧
    currentDetectorType outOfRangeDetectorSettings
      = .error (.assertion "QList<T>::at: index out of range") := by
  refine ⟨?_, rfl⟩
  have hc := createKeypointDetector_ok_candidates st deviceCount handle h
  have he := createKeypointDetector_candidates_eq_decode st deviceCount
  cases hd : decode st.Feature2D_1Detector detectorNames with
  | none =>
    rw [hd] at he
    unfold createKeypointDetector at h
    rw [he] at h
    exact absurd h (by simp)
  | some n =>
    rw [hd] at he
    obtain ⟨hlen, h0, h9, hname⟩ := decode_eq_some _ _ _ hd
    have hint := decode_toInt _ _ _ hd
    have hlen9 : (alternativeNames st.Feature2D_1Detector).length = 9 := hlen
    have h9' : n < 9 := h9
    refine ⟨n, rfl, ?_, ?_⟩
    · unfold currentDetectorType
      simp only [hint, Option.getD_some]
      change (if 0 ≤ n ∧ n < ((alternativeNames st.Feature2D_1Detector).length : Int) then
        Except.ok (QStringList.at (alternativeNames st.Feature2D_1Detector) n)
        else Except.error (Abort.assertion "QList<T>::at: index out of range")) = _
      rw [if_pos ⟨h0, by rw [hlen9]; exact h9'⟩, hname]
    · rw [hc, he]
      exact createKeypointDetector_switch_algorithm st deviceCount _ n h0 h9' hname

/-- Witness of C14: the example store, whose detector code selects SURF. -/
theorem currentDetectorType_consistent_witness :
    ∃ index, decode exampleSettings.Feature2D_1Detector detectorNames = some index ∧
      currentDetectorType exampleSettings = .ok (QStringList.at detectorNames index) ∧
      constructedDetectors
          (some (.SURF [.real "600".toList, .int 4, .int 2, .bool true, .bool false]), none)
        = [QStringList.at detectorNames index] :=
  (currentDetectorType_consistent exampleSettings 0
    ⟨some (.SURF [.real "600".toList, .int 4, .int 2, .bool true, .bool false]), none⟩
    rfl).1

end FindObject
